import Mathlib

/-!
# crosswalk-tizen: extension module bridge and web view wrapper

A shallow embedding of `extensions/renderer/xwalk_extension_module.cc` and of
`runtime/web_view_impl.cc`, with the properties proved about them.

Conventions of the embedding:

* `std::string` is `String`; every `Char` stands for one `char` of the C++ string, so
  `size()` is `String.length` and positions are indices into `String.data`.
* `std::string::npos` is `none`.
* A `const char*` obtained with `c_str()` and read back as a C string (by `%s`, by
  `v8::String::NewFromUtf8`) ends at the first NUL: see `c_str`.
* C `int` values that are only compared and returned are `Int`.
* The view wrapper is a state (`WebViewImpl`) passed through its methods and callbacks;
  what they do to the native widget and to the listener is recorded, in order, in the
  field `effects`.
-/

set_option maxRecDepth 100000

namespace wrt

/-! ## runtime/web_view_impl.cc : rotation helpers -/

/-- `static int ToWebRotation(int r)`. -/
def ToWebRotation (r : Int) : Int :=
  if r = 90 then -90
  else if r = 270 then 90
  else r

/-- `static int ToNativeRotation(int r)`. -/
def ToNativeRotation (r : Int) : Int :=
  if r = -90 then 90
  else if r = 90 then 270
  else r

end wrt

namespace extensions

/-! ## std::string primitives -/

/-- The NUL character that ends a C string. -/
def NUL : Char := Char.ofNat 0

/-- The text a C-string reader sees behind `s.c_str()`: the characters before the first NUL. -/
def c_str (s : String) : String :=
  ⟨s.data.takeWhile (fun c => c != NUL)⟩

/-- Search of `std::string::find`: first position of `c` in the remaining characters `l`,
where the head of `l` sits at position `i`. -/
def findAux (c : Char) : List Char → Nat → Option Nat
  | [], _ => none
  | x :: xs, i => if x = c then some i else findAux c xs (i + 1)

/-- `s.find(c, pos)`: the first position `p ≥ pos` with `s[p] == c`; `none` is `npos`. -/
def find (s : String) (c : Char) (pos : Nat) : Option Nat :=
  findAux c (s.data.drop pos) pos

/-- `s.substr(0, n)`. -/
def substr0 (s : String) (n : Nat) : String :=
  ⟨s.data.take n⟩

/-! ## CodeToEnsureNamespace -/

set_option linter.unusedVariables false in
/-- The `while (true)` loop of `CodeToEnsureNamespace`, entered with the current values of
`pos` and `result`. -/
def CodeToEnsureNamespace.loop (extension_name : String) (pos : Nat) (result : String) : String :=
  match h : find extension_name '.' pos with
  | none => result ++ (extension_name ++ " = \x7b\x7d;")
  | some p =>
    let ns := substr0 extension_name p
    CodeToEnsureNamespace.loop extension_name (p + 1)
      (result ++ (ns ++ " = " ++ ns ++ " || \x7b\x7d; "))
termination_by extension_name.length + 1 - pos
decreasing_by
  have hb : ∀ (l : List Char) (i q : Nat), findAux '.' l i = some q → i ≤ q ∧ q < i + l.length := by
    intro l
    induction l with
    | nil => intro i q hq; simp [findAux] at hq
    | cons x xs ih =>
      intro i q hq
      simp only [findAux] at hq
      split at hq
      · simp only [Option.some.injEq] at hq
        subst hq
        simp
      · have := ih (i + 1) q hq
        simp only [List.length_cons]
        omega
  have hp := hb (extension_name.data.drop pos) pos p h
  simp only [List.length_drop] at hp
  have hlen : extension_name.length = extension_name.data.length := rfl
  omega

/-- `std::string CodeToEnsureNamespace(const std::string& extension_name)`. -/
def CodeToEnsureNamespace (extension_name : String) : String :=
  CodeToEnsureNamespace.loop extension_name 0 ""

/-! ## StringPrintf -/

/-- Expansion of a printf format whose only conversions are `%s`: each `%s` is replaced by
the next argument, a C string; every other character is copied. -/
def vformat : List Char → List String → List Char
  | [], _ => []
  | [c], _ => [c]
  | c :: d :: rest, args =>
    if c = '%' ∧ d = 's' then
      match args with
      | a :: args' => a.data ++ vformat rest args'
      | [] => vformat rest []
    else c :: vformat (d :: rest) args

/-- `INT_MAX` of a 32-bit `int`. -/
def INT_MAX : Int := 2147483647

/-- Return value of `vsnprintf(buf, size, format, ap)` when the complete expansion of the
format is `out`: the number of characters of `out`, whatever `size` is, or a negative
value (with `errno == EOVERFLOW`) when that number does not fit an `int`. -/
def vsnprintf (out : String) : Int :=
  if (out.length : Int) ≤ INT_MAX then (out.length : Int) else -1

/-- The loop `while (true)` of `StringAppendVT` ("repeatedly increase buffer size until it
fits"), entered with the current `mem_length`, which is positive. `result` at the loop head
is the value the previous `vsnprintf` returned, which is `vsnprintf out` every time; when
it is negative `errno` is `EOVERFLOW`, so the loop goes on doubling. Beyond 32 MiB the
function gives up and leaves `*dst` as it was. The source computes `result + 1` in `int`;
here the sum is taken in unbounded integers, so the one case where it overflows, an
expansion of exactly `INT_MAX` characters, is not represented: the definition gives up
there as for every expansion beyond 32 MiB. -/
def StringAppendVT.grow (dst out : String) (mem_length : Nat) (hpos : 0 < mem_length) : String :=
  let result := vsnprintf out
  let mem_length' : Nat := if result < 0 then mem_length * 2 else (result + 1).toNat
  if hbig : mem_length' > 32 * 1024 * 1024 then
    dst
  else
    let result' := vsnprintf out
    if hfit : 0 ≤ result' ∧ result' < (mem_length' : Int) then
      dst ++ out
    else
      StringAppendVT.grow dst out mem_length' (by
        show 0 < (if vsnprintf out < 0 then mem_length * 2 else (vsnprintf out + 1).toNat)
        split <;> omega)
termination_by 32 * 1024 * 1024 + 1 - mem_length
decreasing_by
  have h1 : ¬ (32 * 1024 * 1024 <
      (if vsnprintf out < 0 then mem_length * 2 else (vsnprintf out + 1).toNat)) := hbig
  have h2 : ¬ (0 ≤ vsnprintf out ∧ vsnprintf out <
      ((if vsnprintf out < 0 then mem_length * 2 else (vsnprintf out + 1).toNat : Nat) : Int)) := hfit
  show 32 * 1024 * 1024 + 1 -
      (if vsnprintf out < 0 then mem_length * 2 else (vsnprintf out + 1).toNat) <
      32 * 1024 * 1024 + 1 - mem_length
  by_cases hneg : vsnprintf out < 0
  · rw [if_pos hneg] at h1 ⊢
    omega
  · rw [if_neg hneg] at h2
    exact absurd (by omega) h2

/-- `StringAppendVT(dst, format, ap)`: the new value of `*dst`. The first attempt uses the
stack buffer of 1024 characters. -/
def StringAppendVT (dst format : String) (args : List String) : String :=
  let out : String := ⟨vformat format.data args⟩
  let result := vsnprintf out
  if 0 ≤ result ∧ result < 1024 then
    dst ++ out
  else
    StringAppendVT.grow dst out 1024 (by decide)

/-- `std::string StringPrintf(const char* format, ...)`. -/
def StringPrintf (format : String) (args : List String) : String :=
  StringAppendVT "" format args

/-- The format string of `WrapAPICode`. -/
def kWrapAPICodeFormat : String :=
  "var %s; (function(extension, requireNative) \x7b " ++
  "extension.internal = \x7b\x7d;" ++
  "extension.internal.sendSyncMessage = extension.sendSyncMessage;" ++
  "delete extension.sendSyncMessage;" ++
  "var Object = requireNative(\x27objecttools\x27);" ++
  "var exports = \x7b\x7d; (function() \x7b\x27use strict\x27; %s\n\x7d)();" ++
  "%s = exports; \x7d);"

/-- `std::string WrapAPICode(const std::string& extension_code,
const std::string& extension_name)`. -/
def WrapAPICode (extension_code extension_name : String) : String :=
  StringPrintf kWrapAPICodeFormat
    [c_str (CodeToEnsureNamespace extension_name), c_str extension_code, c_str extension_name]

/-! ## Script values and the module's world -/

/-- A script value as far as the callbacks inspect it: `IsUndefined`, `IsFunction`, and the
kinds of value the callbacks hand back. `external` is the `v8::External` wrapping `this`. -/
inductive Value where
  | undefined
  | null
  | boolean (b : Bool)
  | number (n : Int)
  | string (s : String)
  | function (handle : Nat)
  | object (handle : Nat)
  | external
  deriving DecidableEq, Repr

/-- `value->IsUndefined()`. -/
def Value.IsUndefined : Value → Bool
  | Value.undefined => true
  | _ => false

/-- `value->IsFunction()`. -/
def Value.IsFunction : Value → Bool
  | Value.function _ => true
  | _ => false

/-- `value->IsString()`. -/
def Value.IsString : Value → Bool
  | Value.string _ => true
  | _ => false

/-- `value->IsBoolean()`. -/
def Value.IsBoolean : Value → Bool
  | Value.boolean _ => true
  | _ => false

/-- `value.As<v8::Function>()`: the function handle, for a value that is a function. -/
def Value.AsFunction : Value → Option Nat
  | Value.function f => some f
  | _ => none

/-- A call made on one of the two collaborators: the extension client (`client_`) or the
runtime-IPC singleton (`RuntimeIPCClient::GetInstance()`). -/
inductive Call where
  | PostMessageToNative (instance_id msg : String)
  | SendSyncMessageToNative (instance_id msg : String)
  | DestroyInstance (instance_id : String)
  | SendMessage (context : Nat) (type data : String)
  | SendSyncMessage (context : Nat) (type data : String)
  | SendAsyncMessage (context : Nat) (type value : String) (js_callback : Option Nat)
  | CreateInstance (extension_name : String)
  deriving DecidableEq, Repr

/-- What the engine and the two collaborators answer; their code is outside this file.
* `Utf8Value v` is `std::string(*v8::String::Utf8Value(v->ToString()))`;
* `SendSyncMessageToNative history instance_id msg` is the reply of the extension client,
  given the calls made before;
* `SendSyncMessage history context type data` is the reply of the runtime-IPC client. -/
structure Host where
  Utf8Value : Value → String
  SendSyncMessageToNative : List Call → String → String → String
  SendSyncMessage : List Call → Nat → String → String → String

/-- The data members of `XWalkExtensionModule` that the callbacks read or write.
`message_listener_` is the persistent handle (`none` when empty); `module_system_` stands
for the context that `module_system_->GetV8Context()` yields. -/
structure XWalkExtensionModule where
  extension_name_ : String
  instance_id_ : String
  message_listener_ : Option Nat
  module_system_ : Nat
  deriving DecidableEq, Repr

/-- Everything a callback can read or change.
* `function_data` is the value stored under the key `kXWalkExtensionModule` in the data
  object of the six function templates (`undefined` once the key is deleted);
* `module` holds the fields of the module the key points to;
* `calls` lists the calls made so far on the collaborators, oldest first;
* `log` lists the messages written with `LOGGER(ERROR)`, oldest first. -/
structure World where
  function_data : Value
  module : XWalkExtensionModule
  calls : List Call
  log : List String
  deriving DecidableEq, Repr

/-- `info[i]`: the i-th argument, `undefined` beyond `info.Length()`. -/
def arg (info : List Value) (i : Nat) : Value :=
  info.getD i Value.undefined

/-- The constructor `XWalkExtensionModule(client, module_system, extension_name)`: the key
is set to the new module, which has no instance and no listener yet. -/
def XWalkExtensionModule.New (module_system : Nat) (extension_name : String) : World :=
  { function_data := Value.external
    module :=
      { extension_name_ := extension_name
        instance_id_ := ""
        message_listener_ := none
        module_system_ := module_system }
    calls := []
    log := [] }

/-- The destructor `~XWalkExtensionModule()`: deletes the key from the function data,
resets the listener, and destroys the native instance if there is one. -/
def XWalkExtensionModule.Destructor (w : World) : World :=
  { function_data := Value.undefined
    module := { w.module with message_listener_ := none }
    calls :=
      if w.module.instance_id_ ≠ "" then
        w.calls ++ [Call.DestroyInstance w.module.instance_id_]
      else w.calls
    log := w.log }

/-- `XWalkExtensionModule::GetExtensionModule(info)`: the module behind the key, or `none`
(NULL) with an error logged when the key is gone. -/
def GetExtensionModule (w : World) : Option XWalkExtensionModule × World :=
  if w.function_data.IsUndefined then
    (none, { w with log := w.log ++ ["Trying to use extension from already destroyed context!"] })
  else
    (some w.module, w)

/-- `XWalkExtensionModule::PostMessageCallback`: the value returned to script and the new
world. -/
def PostMessageCallback (host : Host) (w : World) (info : List Value) : Value × World :=
  match GetExtensionModule w with
  | (none, w1) => (Value.boolean false, w1)
  | (some module, w1) =>
    if info.length ≠ 1 then (Value.boolean false, w1)
    else
      let value := host.Utf8Value (arg info 0)
      (Value.boolean true,
        { w1 with calls := w1.calls ++ [Call.PostMessageToNative module.instance_id_ value] })

/-- `XWalkExtensionModule::SendSyncMessageCallback`. The return value starts as `undefined`
and stays so when `result.Set` is not reached. -/
def SendSyncMessageCallback (host : Host) (w : World) (info : List Value) : Value × World :=
  match GetExtensionModule w with
  | (none, w1) => (Value.boolean false, w1)
  | (some module, w1) =>
    if info.length ≠ 1 then (Value.boolean false, w1)
    else
      let value := host.Utf8Value (arg info 0)
      let reply := host.SendSyncMessageToNative w1.calls module.instance_id_ value
      let w2 : World :=
        { w1 with calls := w1.calls ++ [Call.SendSyncMessageToNative module.instance_id_ value] }
      if reply ≠ "" then (Value.string (c_str reply), w2)
      else (Value.undefined, w2)

/-- `XWalkExtensionModule::SetMessageListenerCallback`. -/
def SetMessageListenerCallback (w : World) (info : List Value) : Value × World :=
  match GetExtensionModule w with
  | (none, w1) => (Value.boolean false, w1)
  | (some module, w1) =>
    if info.length ≠ 1 then (Value.boolean false, w1)
    else if !(arg info 0).IsFunction && !(arg info 0).IsUndefined then
      (Value.boolean false,
        { w1 with log := w1.log ++ ["Trying to set message listener with invalid value."] })
    else if (arg info 0).IsUndefined then
      (Value.boolean true, { w1 with module := { module with message_listener_ := none } })
    else
      (Value.boolean true,
        { w1 with module := { module with message_listener_ := (arg info 0).AsFunction } })

/-- `XWalkExtensionModule::SendRuntimeMessageCallback`. -/
def SendRuntimeMessageCallback (host : Host) (w : World) (info : List Value) : Value × World :=
  match GetExtensionModule w with
  | (none, w1) => (Value.boolean false, w1)
  | (some module, w1) =>
    if info.length < 1 then (Value.boolean false, w1)
    else
      let type := host.Utf8Value (arg info 0)
      let data_str := if info.length > 1 then host.Utf8Value (arg info 1) else ""
      (Value.boolean true,
        { w1 with calls := w1.calls ++ [Call.SendMessage module.module_system_ type data_str] })

/-- `XWalkExtensionModule::SendRuntimeSyncMessageCallback`. -/
def SendRuntimeSyncMessageCallback (host : Host) (w : World) (info : List Value) :
    Value × World :=
  match GetExtensionModule w with
  | (none, w1) => (Value.undefined, w1)
  | (some module, w1) =>
    if info.length < 1 then (Value.undefined, w1)
    else
      let type := host.Utf8Value (arg info 0)
      let data_str := if info.length > 1 then host.Utf8Value (arg info 1) else ""
      let reply := host.SendSyncMessage w1.calls module.module_system_ type data_str
      (Value.string (c_str reply),
        { w1 with
          calls := w1.calls ++ [Call.SendSyncMessage module.module_system_ type data_str] })

/-- `XWalkExtensionModule::SendRuntimeAsyncMessageCallback`; `js_callback` is `none` for
the NULL pointer. -/
def SendRuntimeAsyncMessageCallback (host : Host) (w : World) (info : List Value) :
    Value × World :=
  match GetExtensionModule w with
  | (none, w1) => (Value.boolean false, w1)
  | (some module, w1) =>
    if info.length < 1 then (Value.boolean false, w1)
    else
      let type := host.Utf8Value (arg info 0)
      let value_str := if info.length > 1 then host.Utf8Value (arg info 1) else ""
      let js_callback : Option Nat :=
        if info.length > 2 then
          (if (arg info 2).IsFunction then (arg info 2).AsFunction else none)
        else none
      (Value.boolean true,
        { w1 with
          calls := w1.calls ++
            [Call.SendAsyncMessage module.module_system_ type value_str js_callback] })

/-- The module is alive: the key `kXWalkExtensionModule` is still set in the function data. -/
def World.alive (w : World) : Bool :=
  !w.function_data.IsUndefined

/-- World `b` differs from world `a` in the error log at most: same key, same module
fields (the message listener among them), same calls on the collaborators. -/
def World.sameButLog (a b : World) : Prop :=
  b.function_data = a.function_data ∧ b.module = a.module ∧ b.calls = a.calls

instance (a b : World) : Decidable (World.sameButLog a b) := by
  unfold World.sameButLog
  infer_instance

/-- A host that echoes: the string form of a string is itself and of every other value is
empty, and both synchronous sends reply with the message sent. -/
def echoHost : Host :=
  { Utf8Value := fun v => match v with
      | Value.string s => s
      | _ => ""
    SendSyncMessageToNative := fun _ _ msg => msg
    SendSyncMessage := fun _ _ _ data => data }

/-- A host whose extension client replies to every synchronous message with the five
characters `a`, `b`, NUL, `c`, `d`. -/
def nulHost : Host :=
  { Utf8Value := fun v => match v with
      | Value.string s => s
      | _ => ""
    SendSyncMessageToNative := fun _ _ _ => "ab\x00cd"
    SendSyncMessage := fun _ _ _ data => data }

/-- One use of an entry point by script, with its arguments. -/
inductive EntryCall where
  | postMessage (info : List Value)
  | sendSyncMessage (info : List Value)
  | setMessageListener (info : List Value)
  | sendRuntimeMessage (info : List Value)
  | sendRuntimeSyncMessage (info : List Value)
  | sendRuntimeAsyncMessage (info : List Value)
  deriving DecidableEq, Repr

/-- The world after script has used one entry point. -/
def EntryCall.run (host : Host) (w : World) : EntryCall → World
  | EntryCall.postMessage info => (PostMessageCallback host w info).2
  | EntryCall.sendSyncMessage info => (SendSyncMessageCallback host w info).2
  | EntryCall.setMessageListener info => (SetMessageListenerCallback w info).2
  | EntryCall.sendRuntimeMessage info => (SendRuntimeMessageCallback host w info).2
  | EntryCall.sendRuntimeSyncMessage info => (SendRuntimeSyncMessageCallback host w info).2
  | EntryCall.sendRuntimeAsyncMessage info => (SendRuntimeAsyncMessageCallback host w info).2

/-- The world after script has used the entry points of `script`, in order. -/
def runScript (host : Host) (w : World) (script : List EntryCall) : World :=
  script.foldl (EntryCall.run host) w

/-- What the extension client and the script engine answer during `LoadExtensionCode`;
their code is outside this file.
* `CreateInstance history extension_name` is the instance id the client returns;
* `GetExtension extension_name` is the JavaScript code of the extension
  (`ext->GetJavascriptCode()`), `none` when the client returns `nullptr`;
* `RunString code` is the value of `RunString(code, &exception)` and the exception text;
* `script` lists the uses the API code makes of the entry points when it is called;
* `exception` is the text of the exception caught around that call, if there is one. -/
structure Loader where
  CreateInstance : List Call → String → String
  GetExtension : String → Option String
  RunString : String → Value × String
  script : List EntryCall
  exception : Option String

/-- `XWalkExtensionModule::LoadExtensionCode`. -/
def LoadExtensionCode (host : Host) (ld : Loader) (w : World) : World :=
  let instance_id := ld.CreateInstance w.calls w.module.extension_name_
  let w1 : World :=
    { w with
      module := { w.module with instance_id_ := instance_id }
      calls := w.calls ++ [Call.CreateInstance w.module.extension_name_] }
  if instance_id = "" then
    { w1 with
      log := w1.log ++ ["Failed to create an instance of " ++ w1.module.extension_name_] }
  else
    match ld.GetExtension w1.module.extension_name_ with
    | none =>
      { w1 with
        log := w1.log ++ ["Failed to get an extension " ++ w1.module.extension_name_] }
    | some code =>
      let wrapped_api_code := WrapAPICode code w1.module.extension_name_
      let result := ld.RunString wrapped_api_code
      if !result.1.IsFunction then
        { w1 with
          log := w1.log ++
            ["Couldn't load JS API code for " ++ w1.module.extension_name_ ++ " : " ++
              result.2] }
      else
        let w2 := runScript host w1 ld.script
        match ld.exception with
        | some text =>
          { w2 with
            log := w2.log ++
              ["Exception while loading JS API code for " ++ w2.module.extension_name_ ++
                " : " ++ text] }
        | none => w2

/-- A loader whose client creates the instance "1" and knows no extension. -/
def lostExtensionLoader : Loader :=
  { CreateInstance := fun _ _ => "1"
    GetExtension := fun _ => none
    RunString := fun _ => (Value.undefined, "")
    script := []
    exception := none }

/-! ## Vocabulary of the statements -/

/-- Positions of the dots in the characters `l`, the head of `l` sitting at position `i`. -/
def dotsAux : List Char → Nat → List Nat
  | [], _ => []
  | x :: xs, i => if x = '.' then i :: dotsAux xs (i + 1) else dotsAux xs (i + 1)

/-- The positions of the `'.'` characters of `name`, in increasing order. -/
def dotPositions (name : String) : List Nat :=
  (List.range name.length).filter (fun i => name.data[i]? = some '.')

/-- Concatenation of a list of strings, in order. -/
def concatAll : List String → String
  | [] => ""
  | s :: rest => s ++ concatAll rest

/-- The guarded statement for the namespace `ns`, as the code writes it. -/
def guarded (ns : String) : String :=
  ns ++ " = " ++ ns ++ " || \x7b\x7d; "

/-- The wording of the specification for the namespace-ensuring code: one guarded
statement for every dot-delimited prefix of the name, the full name included. -/
def specGuardedChain (name : String) : String :=
  concatAll (((dotPositions name).map (substr0 name) ++ [name]).map guarded)

/-- The literal text of the format of `WrapAPICode` between its first and second `%s`. -/
def WrapAPICode.middle : String :=
  "; (function(extension, requireNative) \x7b " ++
  "extension.internal = \x7b\x7d;" ++
  "extension.internal.sendSyncMessage = extension.sendSyncMessage;" ++
  "delete extension.sendSyncMessage;" ++
  "var Object = requireNative(\x27objecttools\x27);" ++
  "var exports = \x7b\x7d; (function() \x7b\x27use strict\x27; "

/-- The text that stands before the extension source in the wrapped program. -/
def WrapAPICode.prologue (extension_name : String) : String :=
  "var " ++ (c_str (CodeToEnsureNamespace extension_name) ++ WrapAPICode.middle)

/-- The text that stands after the extension source in the wrapped program. -/
def WrapAPICode.epilogue (extension_name : String) : String :=
  "\n\x7d)();" ++ (c_str extension_name ++ " = exports; \x7d);")

/-- The complete expansion of the format of `WrapAPICode`: what `vsnprintf` produces when
the buffer is large enough. -/
def WrapAPICode.expansion (extension_code extension_name : String) : String :=
  ⟨vformat kWrapAPICodeFormat.data
    [c_str (CodeToEnsureNamespace extension_name), c_str extension_code, c_str extension_name]⟩

/-- The line number, counted from 1, of the character at offset `i` of `text`: one more
than the number of newline characters before it. -/
def lineOf (text : String) (i : Nat) : Nat :=
  (text.data.take i).count '\n' + 1

end extensions

namespace wrt

/-! ## runtime/web_view_impl.cc : the view wrapper -/

/-- `const char* kKeyNameBack`. -/
def kKeyNameBack : String := "back"

/-- `const char* kKeyNameMenu`. -/
def kKeyNameMenu : String := "menu"

/-- The hardware key types of `Ea_Callback_Type`: the two the view registers for, and
every other value of the enumeration. -/
inductive Ea_Callback_Type where
  | EA_CALLBACK_BACK
  | EA_CALLBACK_MORE
  | other (code : Nat)
  deriving DecidableEq, Repr

/-- The kinds of context menu item: the five named in the `switch` of the customize
callback, and every other tag. -/
inductive Ewk_Context_Menu_Item_Tag where
  | EWK_CONTEXT_MENU_ITEM_TAG_OPEN_IMAGE_IN_NEW_WINDOW
  | EWK_CONTEXT_MENU_ITEM_TAG_OPEN_LINK_IN_NEW_WINDOW
  | EWK_CONTEXT_MENU_ITEM_TAG_OPEN_FRAME_IN_NEW_WINDOW
  | EWK_CONTEXT_MENU_ITEM_TAG_SEARCH_WEB
  | EWK_CONTEXT_MENU_ITEM_TAG_DOWNLOAD_IMAGE_TO_DISK
  | other (code : Nat)
  deriving DecidableEq, Repr

/-- The lambdas that the `Init...Callback` functions install on the widget. -/
inductive Callback where
  | key_callback
  | loadstart_callback
  | loadfinished_callback
  | loadprogress_callback
  | rendered_callback
  | navigation_decide_callback
  | newwindow_decide_callback
  | database_exceeded_callback
  | indexed_db_exceeded_callback
  | localfile_exceeded_callback
  | wrt_message_callback
  | orientation_lock_callback
  | console_message_callback
  | custom_context_menu_callback
  | create_callback
  | close_callback
  | enter_callback
  | exit_callback
  | request_callback
  | permission_callback
  | auth_callback
  | certi_callback
  deriving DecidableEq, Repr

/-- A `result_handler` closure taking one `bool`, with the request it captured: the three
quota handlers capture the widget `view`, the others the native request object. -/
inductive ResultHandler where
  | database_quota (view : Nat)
  | indexed_db_quota (view : Nat)
  | local_file_quota (view : Nat)
  | notification (request : Nat)
  | geolocation (request : Nat)
  | certificate (policy : Nat)
  deriving DecidableEq, Repr

/-- The `result_handler` closure of the authentication callback, taking `submit`, `id` and
`password`; it captured the challenge. -/
inductive AuthResultHandler where
  | authentication (auth_challenge : Nat)
  deriving DecidableEq, Repr

/-- What a piece of the wrapper does to the outside, in order: calls on the native widget
API (named as in the source), debug log lines, and calls of the listener's methods
(`On...`; the `view_` argument every one of them receives is left out). -/
inductive Effect where
  | LOGGER_DEBUG (msg : String)
  | ewk_view_orientation_send (angle : Int)
  | evas_object_show
  | ewk_policy_decision_use (policy : Nat)
  | ewk_policy_decision_ignore (policy : Nat)
  | ewk_view_exceeded_database_quota_reply (view : Nat) (result : Bool)
  | ewk_view_exceeded_indexed_database_quota_reply (view : Nat) (result : Bool)
  | ewk_view_exceeded_local_file_system_quota_reply (view : Nat) (result : Bool)
  | ewk_notification_permission_reply (request : Nat) (result : Bool)
  | ewk_notification_permission_request_suspend (request : Nat)
  | ewk_geolocation_permission_reply (request : Nat) (result : Bool)
  | ewk_geolocation_permission_request_suspend (request : Nat)
  | ewk_auth_challenge_credential_cancel (auth_challenge : Nat)
  | ewk_auth_challenge_credential_use (auth_challenge : Nat) (id password : String)
  | ewk_auth_challenge_suspend (auth_challenge : Nat)
  | ewk_certificate_policy_decision_allowed_set (policy : Nat) (allow : Bool)
  | ewk_certificate_policy_decision_suspend (policy : Nat)
  | ewk_view_fullscreen_exit
  | FullScreen (enable : Bool)
  | ewk_view_text_selection_clear
  | ewk_context_menu_nth_item_get (idx : Nat)
  | ewk_context_menu_item_remove (idx : Nat)
  | OnDidNavigation (url : String)
  | OnDidOpenWindow (url : String)
  | OnContextMenuDisabled
  | OnHardwareKey (keyname : String)
  | OnQuotaExceed (url : String) (result_handler : ResultHandler)
  | OnNotificationPermissionRequest (url : String) (result_handler : ResultHandler)
  | OnGeolocationPermissionRequest (url : String) (result_handler : ResultHandler)
  | OnAuthenticationRequest (url message : String) (result_handler : AuthResultHandler)
  | OnCertificateAllowRequest (url pem : String) (result_handler : ResultHandler)
  deriving DecidableEq, Repr

/-- The answers of the application's `WebView::EventListener` that the wrapper acts on. -/
structure EventListener where
  OnDidNavigation : String → Bool
  OnDidOpenWindow : String → Bool
  OnContextMenuDisabled : Bool

/-- An `Ewk_Security_Origin` as its three accessors show it: the C strings returned by
`ewk_security_origin_protocol_get` and `ewk_security_origin_host_get` (not null), and the
`uint16_t` returned by `ewk_security_origin_port_get`. -/
structure Ewk_Security_Origin where
  protocol : String
  host : String
  port : Nat
  deriving DecidableEq, Repr

/-- The registrations held by the native widget `ewk_view_`: the smart callbacks
(`evas_object_smart_callback_add`, by event name), the hardware key callbacks
(`ea_object_event_callback_add`, by key type), and the six single-slot callbacks installed
by the `ewk_view_..._callback_set` functions (`none` once set to NULL). -/
structure Widget where
  smart_callbacks : List (String × Callback)
  ea_callbacks : List (Ea_Callback_Type × Callback)
  exceeded_database_quota_callback : Option Callback
  exceeded_indexed_database_quota_callback : Option Callback
  exceeded_local_file_system_quota_callback : Option Callback
  orientation_lock_callback : Option Callback
  notification_permission_callback : Option Callback
  geolocation_permission_callback : Option Callback
  deriving DecidableEq, Repr

/-- A widget as `ewk_view_add_with_context` returns it: nothing registered. -/
def Widget.empty : Widget :=
  { smart_callbacks := []
    ea_callbacks := []
    exceeded_database_quota_callback := none
    exceeded_indexed_database_quota_callback := none
    exceeded_local_file_system_quota_callback := none
    orientation_lock_callback := none
    notification_permission_callback := none
    geolocation_permission_callback := none }

/-- `evas_object_smart_callback_add(obj, event, func, data)`. -/
def Widget.evas_object_smart_callback_add (v : Widget) (event : String) (func : Callback) :
    Widget :=
  { v with smart_callbacks := v.smart_callbacks ++ [(event, func)] }

/-- `evas_object_smart_callback_del(obj, event, func)`: removes the first registration of
`func` for `event`, if there is one. -/
def Widget.evas_object_smart_callback_del (v : Widget) (event : String) (func : Callback) :
    Widget :=
  { v with smart_callbacks := v.smart_callbacks.erase (event, func) }

/-- `ea_object_event_callback_add(obj, type, func, data)`. -/
def Widget.ea_object_event_callback_add (v : Widget) (type : Ea_Callback_Type)
    (func : Callback) : Widget :=
  { v with ea_callbacks := v.ea_callbacks ++ [(type, func)] }

/-- `ea_object_event_callback_del(obj, type, func)`; a null `func` matches nothing. -/
def Widget.ea_object_event_callback_del (v : Widget) (type : Ea_Callback_Type)
    (func : Option Callback) : Widget :=
  match func with
  | some f => { v with ea_callbacks := v.ea_callbacks.erase (type, f) }
  | none => v

/-- `smart_callbacks_[key] = func` on the member `smart_callbacks_`, a map from event name
to callback kept in key order (the lexicographic order of the characters). -/
def map_set : List (String × Callback) → String → Callback → List (String × Callback)
  | [], key, func => [(key, func)]
  | (k, f) :: rest, key, func =>
    if key = k then (key, func) :: rest
    else if key.data < k.data then (key, func) :: (k, f) :: rest
    else (k, f) :: map_set rest key func

/-- `smart_callbacks_[key]` read: the callback stored under `key`, `none` for the null
pointer that a missing key yields. -/
def map_get : List (String × Callback) → String → Option Callback
  | [], _ => none
  | (k, f) :: rest, key => if key = k then some f else map_get rest key

/-- The state of a `WebViewImpl` and of what it is attached to.
* `window_rotation` is the value of `window_->rotation()`, `window_rotation_handlers` the
  ids of the rotation handlers registered on the window;
* `ewk_view_` holds the registrations of the native widget;
* `listener_` is `none` for NULL;
* `effects` lists what the wrapper has done to the outside so far, oldest first. -/
structure WebViewImpl where
  window_rotation : Int
  window_rotation_handlers : List Nat
  ewk_view_ : Widget
  listener_ : Option EventListener
  fullscreen_ : Bool
  smart_callbacks_ : List (String × Callback)
  rotation_handler_id_ : Nat
  effects : List Effect

/-- Appends one effect to the record of the view. -/
def WebViewImpl.emit (self : WebViewImpl) (e : Effect) : WebViewImpl :=
  { self with effects := self.effects ++ [e] }

/-- `WebViewImpl::InitKeyCallback`. -/
def WebViewImpl.InitKeyCallback (self : WebViewImpl) : WebViewImpl :=
  { self with
    ewk_view_ :=
      (self.ewk_view_.ea_object_event_callback_add Ea_Callback_Type.EA_CALLBACK_BACK
        Callback.key_callback).ea_object_event_callback_add Ea_Callback_Type.EA_CALLBACK_MORE
        Callback.key_callback
    smart_callbacks_ := map_set self.smart_callbacks_ "key_callback" Callback.key_callback }

/-- `WebViewImpl::InitLoaderCallback`. -/
def WebViewImpl.InitLoaderCallback (self : WebViewImpl) : WebViewImpl :=
  { self with
    ewk_view_ :=
      (((self.ewk_view_.evas_object_smart_callback_add "load,started"
        Callback.loadstart_callback).evas_object_smart_callback_add "load,finished"
        Callback.loadfinished_callback).evas_object_smart_callback_add "load,progress"
        Callback.loadprogress_callback).evas_object_smart_callback_add "frame,rendered"
        Callback.rendered_callback
    smart_callbacks_ :=
      map_set (map_set (map_set (map_set self.smart_callbacks_
        "load,started" Callback.loadstart_callback)
        "load,finished" Callback.loadfinished_callback)
        "load,progress" Callback.loadprogress_callback)
        "frame,rendered" Callback.rendered_callback }

/-- `WebViewImpl::InitPolicyDecideCallback`. -/
def WebViewImpl.InitPolicyDecideCallback (self : WebViewImpl) : WebViewImpl :=
  { self with
    ewk_view_ :=
      (self.ewk_view_.evas_object_smart_callback_add "policy,navigation,decide"
        Callback.navigation_decide_callback).evas_object_smart_callback_add
        "policy,newwindow,decide" Callback.newwindow_decide_callback
    smart_callbacks_ :=
      map_set (map_set self.smart_callbacks_
        "policy,navigation,decide" Callback.navigation_decide_callback)
        "policy,newwindow,decide" Callback.newwindow_decide_callback }

/-- `WebViewImpl::InitQuotaExceededCallback`. -/
def WebViewImpl.InitQuotaExceededCallback (self : WebViewImpl) : WebViewImpl :=
  { self with
    ewk_view_ :=
      { self.ewk_view_ with
        exceeded_database_quota_callback := some Callback.database_exceeded_callback
        exceeded_indexed_database_quota_callback := some Callback.indexed_db_exceeded_callback
        exceeded_local_file_system_quota_callback :=
          some Callback.localfile_exceeded_callback } }

/-- `WebViewImpl::InitIPCMessageCallback`. -/
def WebViewImpl.InitIPCMessageCallback (self : WebViewImpl) : WebViewImpl :=
  { self with
    ewk_view_ :=
      self.ewk_view_.evas_object_smart_callback_add "wrt,message" Callback.wrt_message_callback
    smart_callbacks_ :=
      map_set self.smart_callbacks_ "wrt,message" Callback.wrt_message_callback }

/-- `WebViewImpl::InitOrientaionLockCallback`. -/
def WebViewImpl.InitOrientaionLockCallback (self : WebViewImpl) : WebViewImpl :=
  { self with
    ewk_view_ :=
      { self.ewk_view_ with
        orientation_lock_callback := some Callback.orientation_lock_callback } }

/-- `WebViewImpl::InitConsoleMessageCallback`. -/
def WebViewImpl.InitConsoleMessageCallback (self : WebViewImpl) : WebViewImpl :=
  { self with
    ewk_view_ :=
      self.ewk_view_.evas_object_smart_callback_add "console,message"
        Callback.console_message_callback
    smart_callbacks_ :=
      map_set self.smart_callbacks_ "console,message" Callback.console_message_callback }

/-- `WebViewImpl::InitCustomContextMenuCallback`. -/
def WebViewImpl.InitCustomContextMenuCallback (self : WebViewImpl) : WebViewImpl :=
  { self with
    ewk_view_ :=
      self.ewk_view_.evas_object_smart_callback_add "contextmenu,customize"
        Callback.custom_context_menu_callback
    smart_callbacks_ :=
      map_set self.smart_callbacks_ "contextmenu,customize"
        Callback.custom_context_menu_callback }

/-- `WebViewImpl::InitRotationCallback`; `handler_id` is the id that
`window_->AddRotationHandler` returns for the new handler. -/
def WebViewImpl.InitRotationCallback (self : WebViewImpl) (handler_id : Nat) : WebViewImpl :=
  { self.emit (Effect.ewk_view_orientation_send (ToWebRotation self.window_rotation)) with
    window_rotation_handlers := self.window_rotation_handlers ++ [handler_id]
    rotation_handler_id_ := handler_id }

/-- `WebViewImpl::InitWindowCreateCallback`. -/
def WebViewImpl.InitWindowCreateCallback (self : WebViewImpl) : WebViewImpl :=
  { self with
    ewk_view_ :=
      (self.ewk_view_.evas_object_smart_callback_add "create,window"
        Callback.create_callback).evas_object_smart_callback_add "close,window"
        Callback.close_callback
    smart_callbacks_ :=
      map_set (map_set self.smart_callbacks_ "create,window" Callback.create_callback)
        "close,window" Callback.close_callback }

/-- `WebViewImpl::InitFullscreenCallback`. -/
def WebViewImpl.InitFullscreenCallback (self : WebViewImpl) : WebViewImpl :=
  { self with
    ewk_view_ :=
      (self.ewk_view_.evas_object_smart_callback_add "fullscreen,enterfullscreen"
        Callback.enter_callback).evas_object_smart_callback_add "fullscreen,exitfullscreen"
        Callback.exit_callback
    smart_callbacks_ :=
      map_set (map_set self.smart_callbacks_
        "fullscreen,enterfullscreen" Callback.enter_callback)
        "fullscreen,exitfullscreen" Callback.exit_callback }

/-- `WebViewImpl::InitNotificationPermissionCallback`. -/
def WebViewImpl.InitNotificationPermissionCallback (self : WebViewImpl) : WebViewImpl :=
  { self with
    ewk_view_ :=
      { self.ewk_view_ with notification_permission_callback := some Callback.request_callback } }

/-- `WebViewImpl::InitGeolocationPermissionCallback`. -/
def WebViewImpl.InitGeolocationPermissionCallback (self : WebViewImpl) : WebViewImpl :=
  { self with
    ewk_view_ :=
      { self.ewk_view_ with
        geolocation_permission_callback := some Callback.permission_callback } }

/-- `WebViewImpl::InitAuthenticationCallback`. -/
def WebViewImpl.InitAuthenticationCallback (self : WebViewImpl) : WebViewImpl :=
  { self with
    ewk_view_ :=
      self.ewk_view_.evas_object_smart_callback_add "authentication,challenge"
        Callback.auth_callback
    smart_callbacks_ :=
      map_set self.smart_callbacks_ "authentication,challenge" Callback.auth_callback }

/-- `WebViewImpl::InitCertificateAllowCallback`. -/
def WebViewImpl.InitCertificateAllowCallback (self : WebViewImpl) : WebViewImpl :=
  { self with
    ewk_view_ :=
      self.ewk_view_.evas_object_smart_callback_add "request,certificate,confirm"
        Callback.certi_callback
    smart_callbacks_ :=
      map_set self.smart_callbacks_ "request,certificate,confirm" Callback.certi_callback }

/-- `WebViewImpl::Initialize`: a new widget, the fifteen `Init...` functions in the order
of the source, then `evas_object_show`. -/
def WebViewImpl.Initialize (self : WebViewImpl) (handler_id : Nat) : WebViewImpl :=
  let s0 : WebViewImpl := { self with ewk_view_ := Widget.empty }
  let s1 := s0.InitKeyCallback
  let s2 := s1.InitLoaderCallback
  let s3 := s2.InitPolicyDecideCallback
  let s4 := s3.InitQuotaExceededCallback
  let s5 := s4.InitIPCMessageCallback
  let s6 := s5.InitOrientaionLockCallback
  let s7 := s6.InitConsoleMessageCallback
  let s8 := s7.InitCustomContextMenuCallback
  let s9 := s8.InitRotationCallback handler_id
  let s10 := s9.InitWindowCreateCallback
  let s11 := s10.InitFullscreenCallback
  let s12 := s11.InitNotificationPermissionCallback
  let s13 := s12.InitGeolocationPermissionCallback
  let s14 := s13.InitAuthenticationCallback
  let s15 := s14.InitCertificateAllowCallback
  s15.emit Effect.evas_object_show

/-- The constructor `WebViewImpl(view, window, context)`: no listener, not fullscreen, then
`Initialize()`. `window_rotation` and `window_rotation_handlers` describe the window
passed in. -/
def WebViewImpl.New (window_rotation : Int) (window_rotation_handlers : List Nat)
    (handler_id : Nat) : WebViewImpl :=
  WebViewImpl.Initialize
    { window_rotation := window_rotation
      window_rotation_handlers := window_rotation_handlers
      ewk_view_ := Widget.empty
      listener_ := none
      fullscreen_ := false
      smart_callbacks_ := []
      rotation_handler_id_ := 0
      effects := [] }
    handler_id

/-- The `for` loop of `Deinitialize` over the entries of `smart_callbacks_`. -/
def Deinitialize.loop (v : Widget) : List (String × Callback) → Widget
  | [] => v
  | (event, func) :: rest =>
    Deinitialize.loop (v.evas_object_smart_callback_del event func) rest

/-- `WebViewImpl::Deinitialize`. -/
def WebViewImpl.Deinitialize (self : WebViewImpl) : WebViewImpl :=
  let v1 := Deinitialize.loop self.ewk_view_ self.smart_callbacks_
  let v2 := v1.ea_object_event_callback_del Ea_Callback_Type.EA_CALLBACK_BACK
    (map_get self.smart_callbacks_ "key_callback")
  let v3 : Widget :=
    { v2 with
      exceeded_database_quota_callback := none
      exceeded_indexed_database_quota_callback := none
      exceeded_local_file_system_quota_callback := none
      orientation_lock_callback := none
      notification_permission_callback := none
      geolocation_permission_callback := none }
  { self with
    ewk_view_ := v3
    window_rotation_handlers := self.window_rotation_handlers.erase self.rotation_handler_id_ }

/-- `WebViewImpl::SetEventListener`. -/
def WebViewImpl.SetEventListener (self : WebViewImpl) (listener : Option EventListener) :
    WebViewImpl :=
  { self with listener_ := listener }

/-- `WebViewImpl::OnRotation`. -/
def WebViewImpl.OnRotation (self : WebViewImpl) (degree : Int) : WebViewImpl :=
  self.emit (Effect.ewk_view_orientation_send (ToWebRotation degree))

/-- `WebViewImpl::OnKeyEvent`; `selection_cleared` is what `ewk_view_text_selection_clear`
returns (`EINA_TRUE` or not) if it is called. -/
def WebViewImpl.OnKeyEvent (self : WebViewImpl) (key_type : Ea_Callback_Type)
    (selection_cleared : Bool) : WebViewImpl :=
  if key_type = Ea_Callback_Type.EA_CALLBACK_BACK then
    if self.fullscreen_ then
      self.emit Effect.ewk_view_fullscreen_exit
    else
      let s1 := self.emit Effect.ewk_view_text_selection_clear
      if selection_cleared then s1
      else
        match s1.listener_ with
        | some _ => s1.emit (Effect.OnHardwareKey kKeyNameBack)
        | none => s1
  else if key_type = Ea_Callback_Type.EA_CALLBACK_MORE then
    match self.listener_ with
    | some _ => self.emit (Effect.OnHardwareKey kKeyNameMenu)
    | none => self
  else
    self

/-- The lambda `key_callback`: `self->OnKeyEvent(key)`, as a function of the `WebViewImpl`
its body works on. `InitKeyCallback` installs it with `view_`, not `this`, as user data,
and the lambda casts that pointer to `WebViewImpl*`; which object the cast pointer
designates at run time is not represented here. -/
def key_callback (self : WebViewImpl) (key : Ea_Callback_Type) (selection_cleared : Bool) :
    WebViewImpl :=
  self.OnKeyEvent key selection_cleared

/-- The lambda `enter_callback` of `InitFullscreenCallback`. -/
def enter_callback (self : WebViewImpl) : WebViewImpl :=
  { self with fullscreen_ := true }.emit (Effect.FullScreen true)

/-- The lambda `exit_callback` of `InitFullscreenCallback`. -/
def exit_callback (self : WebViewImpl) : WebViewImpl :=
  { self with fullscreen_ := false }.emit (Effect.FullScreen false)

/-- The lambda `navigation_decide_callback`; `policy` is the `Ewk_Policy_Decision` of the
event and `url` what `ewk_policy_decision_url_get` returns for it. -/
def navigation_decide_callback (self : WebViewImpl) (policy : Nat) (url : String) :
    WebViewImpl :=
  match self.listener_ with
  | some listener =>
    let s1 := self.emit (Effect.OnDidNavigation url)
    if listener.OnDidNavigation url then
      s1.emit (Effect.ewk_policy_decision_use policy)
    else
      s1.emit (Effect.ewk_policy_decision_ignore policy)
  | none => self.emit (Effect.ewk_policy_decision_use policy)

/-- The lambda `newwindow_decide_callback`; the second operand of `&&` is evaluated only
when the first is true. -/
def newwindow_decide_callback (self : WebViewImpl) (policy : Nat) (url : String) :
    WebViewImpl :=
  match self.listener_ with
  | some listener =>
    let s1 := self.emit (Effect.OnDidNavigation url)
    if listener.OnDidNavigation url then
      let s2 := s1.emit (Effect.OnDidOpenWindow url)
      if listener.OnDidOpenWindow url then
        s2.emit (Effect.ewk_policy_decision_use policy)
      else
        s2.emit (Effect.ewk_policy_decision_ignore policy)
    else
      s1.emit (Effect.ewk_policy_decision_ignore policy)
  | none => self.emit (Effect.ewk_policy_decision_use policy)

/-- The text that `std::ostream << bool` writes (no `boolalpha`). -/
def boolText (b : Bool) : String :=
  if b then "1" else "0"

/-- The body of a `result_handler` closure called with `result`: what it does to the
outside. -/
def ResultHandler.call (h : ResultHandler) (result : Bool) : List Effect :=
  match h with
  | ResultHandler.database_quota view =>
    [Effect.LOGGER_DEBUG ("database quota Permission Result : " ++ boolText result),
      Effect.ewk_view_exceeded_database_quota_reply view result]
  | ResultHandler.indexed_db_quota view =>
    [Effect.LOGGER_DEBUG ("indexed db quota Permission Result : " ++ boolText result),
      Effect.ewk_view_exceeded_indexed_database_quota_reply view result]
  | ResultHandler.local_file_quota view =>
    [Effect.LOGGER_DEBUG ("local file quota Permission Result : " ++ boolText result),
      Effect.ewk_view_exceeded_local_file_system_quota_reply view result]
  | ResultHandler.notification request =>
    [Effect.LOGGER_DEBUG ("Notification Permission Result : %d" ++ boolText result),
      Effect.ewk_notification_permission_reply request result]
  | ResultHandler.geolocation request =>
    [Effect.LOGGER_DEBUG ("Geolocation Permission Result : " ++ boolText result),
      Effect.ewk_geolocation_permission_reply request result]
  | ResultHandler.certificate policy =>
    [Effect.ewk_certificate_policy_decision_allowed_set policy result]

/-- The body of the `result_handler` closure of the authentication callback. -/
def AuthResultHandler.call (h : AuthResultHandler) (submit : Bool) (id password : String) :
    List Effect :=
  match h with
  | AuthResultHandler.authentication auth_challenge =>
    if !submit then
      [Effect.LOGGER_DEBUG ("Authentication Result : submit = " ++ boolText submit),
        Effect.ewk_auth_challenge_credential_cancel auth_challenge]
    else
      [Effect.LOGGER_DEBUG ("Authentication Result : submit = " ++ boolText submit),
        Effect.ewk_auth_challenge_credential_use auth_challenge id password]

/-- The text built in the `std::stringstream url` of the quota and permission callbacks:
the protocol, `"://"`, the host, `":"` and the port, the port being written as an unsigned
decimal number. -/
def originUrl (origin : Ewk_Security_Origin) : String :=
  ((("" ++ origin.protocol) ++ "://") ++ origin.host ++ ":") ++ Nat.repr origin.port

/-- The lambda `database_exceeded_callback`: the `Eina_Bool` it returns and the new state.
`user_data` is the `this` the callback was installed with, so `self` is never NULL; `view`
is the widget the event comes from. -/
def database_exceeded_callback (self : WebViewImpl) (view : Nat)
    (origin : Ewk_Security_Origin) : Bool × WebViewImpl :=
  match self.listener_ with
  | none => (true, self)
  | some _ =>
    (true, self.emit
      (Effect.OnQuotaExceed (originUrl origin) (ResultHandler.database_quota view)))

/-- The lambda `indexed_db_exceeded_callback`. -/
def indexed_db_exceeded_callback (self : WebViewImpl) (view : Nat)
    (origin : Ewk_Security_Origin) : Bool × WebViewImpl :=
  match self.listener_ with
  | none => (true, self)
  | some _ =>
    (true, self.emit
      (Effect.OnQuotaExceed (originUrl origin) (ResultHandler.indexed_db_quota view)))

/-- The lambda `localfile_exceeded_callback`. -/
def localfile_exceeded_callback (self : WebViewImpl) (view : Nat)
    (origin : Ewk_Security_Origin) : Bool × WebViewImpl :=
  match self.listener_ with
  | none => (true, self)
  | some _ =>
    (true, self.emit
      (Effect.OnQuotaExceed (originUrl origin) (ResultHandler.local_file_quota view)))

/-- The lambda `request_callback` of `InitNotificationPermissionCallback`; `origin` is what
`ewk_notification_permission_request_origin_get(request)` returns. -/
def request_callback (self : WebViewImpl) (request : Nat) (origin : Ewk_Security_Origin) :
    Bool × WebViewImpl :=
  let s1 := self.emit (Effect.LOGGER_DEBUG "Notification Permission Request")
  match s1.listener_ with
  | none => (true, s1.emit (Effect.ewk_notification_permission_reply request false))
  | some _ =>
    let s2 := s1.emit (Effect.ewk_notification_permission_request_suspend request)
    (true, s2.emit
      (Effect.OnNotificationPermissionRequest (originUrl origin)
        (ResultHandler.notification request)))

/-- The lambda `permission_callback` of `InitGeolocationPermissionCallback`. -/
def permission_callback (self : WebViewImpl) (request : Nat) (origin : Ewk_Security_Origin) :
    Bool × WebViewImpl :=
  let s1 := self.emit (Effect.LOGGER_DEBUG "Geolocation Permission Request")
  match s1.listener_ with
  | none => (true, s1.emit (Effect.ewk_geolocation_permission_reply request false))
  | some _ =>
    let s2 := s1.emit (Effect.ewk_geolocation_permission_request_suspend request)
    (true, s2.emit
      (Effect.OnGeolocationPermissionRequest (originUrl origin)
        (ResultHandler.geolocation request)))

/-- The lambda `auth_callback`; `message` is what `ewk_auth_challenge_realm_get` returns
and `url` what `GetUrl()` returns. -/
def auth_callback (self : WebViewImpl) (auth_challenge : Nat) (message url : String) :
    WebViewImpl :=
  let s1 := self.emit (Effect.LOGGER_DEBUG "Authentication Request")
  match s1.listener_ with
  | none => s1.emit (Effect.ewk_auth_challenge_credential_cancel auth_challenge)
  | some _ =>
    let s2 := s1.emit (Effect.ewk_auth_challenge_suspend auth_challenge)
    s2.emit
      (Effect.OnAuthenticationRequest url message
        (AuthResultHandler.authentication auth_challenge))

/-- The lambda `certi_callback`; `url` and `pem` are what
`ewk_certificate_policy_decision_url_get` and `..._certificate_pem_get` return, `none` for
a null pointer. -/
def certi_callback (self : WebViewImpl) (policy : Nat) (url pem : Option String) :
    WebViewImpl :=
  match self.listener_ with
  | none => self.emit (Effect.ewk_certificate_policy_decision_allowed_set policy false)
  | some _ =>
    let s1 := self.emit (Effect.ewk_certificate_policy_decision_suspend policy)
    s1.emit
      (Effect.OnCertificateAllowRequest (url.getD "") (pem.getD "")
        (ResultHandler.certificate policy))

/-- The `switch (tag)` of the customize callback: whether the item is removed. -/
def removesItem (disabled : Bool) : Ewk_Context_Menu_Item_Tag → Bool
  | Ewk_Context_Menu_Item_Tag.EWK_CONTEXT_MENU_ITEM_TAG_OPEN_IMAGE_IN_NEW_WINDOW => true
  | Ewk_Context_Menu_Item_Tag.EWK_CONTEXT_MENU_ITEM_TAG_OPEN_LINK_IN_NEW_WINDOW => true
  | Ewk_Context_Menu_Item_Tag.EWK_CONTEXT_MENU_ITEM_TAG_OPEN_FRAME_IN_NEW_WINDOW => true
  | Ewk_Context_Menu_Item_Tag.EWK_CONTEXT_MENU_ITEM_TAG_SEARCH_WEB => true
  | Ewk_Context_Menu_Item_Tag.EWK_CONTEXT_MENU_ITEM_TAG_DOWNLOAD_IMAGE_TO_DISK => true
  | Ewk_Context_Menu_Item_Tag.other _ => disabled

/-- One pass through the body of the `for` loop of the customize callback, for the index
`idx`: the menu (the tags of its items, in order) and the effects after it.
`ewk_context_menu_nth_item_get` yields NULL beyond the last item, and removing a NULL item
leaves the menu as it is. -/
def custom_context_menu_callback.body (disabled : Bool) (idx : Nat)
    (st : List Ewk_Context_Menu_Item_Tag × List Effect) :
    List Ewk_Context_Menu_Item_Tag × List Effect :=
  let effects := st.2 ++ [Effect.ewk_context_menu_nth_item_get idx]
  match st.1[idx]? with
  | none => (st.1, effects)
  | some tag =>
    if removesItem disabled tag then
      (st.1.eraseIdx idx, effects ++ [Effect.ewk_context_menu_item_remove idx])
    else
      (st.1, effects)

/-- The loop `for (unsigned idx = ...; idx > 0; --idx)` entered with the current `idx`. -/
def custom_context_menu_callback.loop (disabled : Bool) :
    Nat → List Ewk_Context_Menu_Item_Tag × List Effect →
      List Ewk_Context_Menu_Item_Tag × List Effect
  | 0, st => st
  | idx + 1, st =>
    custom_context_menu_callback.loop disabled idx
      (custom_context_menu_callback.body disabled (idx + 1) st)

/-- The value of `unsigned idx = cnt-1` for the `int cnt`: the difference modulo 2^32. -/
def unsigned_of_int (i : Int) : Nat :=
  (i % 4294967296).toNat

/-- The lambda `custom_context_menu_callback`: the menu after it and the new state. The
menu is the list of the tags of its items; `ewk_context_menu_item_count` is its length. -/
def custom_context_menu_callback (self : WebViewImpl)
    (contextmenu : List Ewk_Context_Menu_Item_Tag) :
    List Ewk_Context_Menu_Item_Tag × WebViewImpl :=
  let asked : Bool × List Effect :=
    match self.listener_ with
    | some listener => (listener.OnContextMenuDisabled, [Effect.OnContextMenuDisabled])
    | none => (false, [])
  let disabled := asked.1
  let cnt : Int := contextmenu.length
  let r := custom_context_menu_callback.loop disabled (unsigned_of_int (cnt - 1))
    (contextmenu, self.effects ++ asked.2)
  (r.1, { self with effects := r.2 })

/-- The denylist of the specification: open image, open link and open frame in a new
window, web search, and image download. -/
def denylist : List Ewk_Context_Menu_Item_Tag :=
  [Ewk_Context_Menu_Item_Tag.EWK_CONTEXT_MENU_ITEM_TAG_OPEN_IMAGE_IN_NEW_WINDOW,
    Ewk_Context_Menu_Item_Tag.EWK_CONTEXT_MENU_ITEM_TAG_OPEN_LINK_IN_NEW_WINDOW,
    Ewk_Context_Menu_Item_Tag.EWK_CONTEXT_MENU_ITEM_TAG_OPEN_FRAME_IN_NEW_WINDOW,
    Ewk_Context_Menu_Item_Tag.EWK_CONTEXT_MENU_ITEM_TAG_SEARCH_WEB,
    Ewk_Context_Menu_Item_Tag.EWK_CONTEXT_MENU_ITEM_TAG_DOWNLOAD_IMAGE_TO_DISK]

/-- The tag is of a denylisted kind: it is one of the five kinds of `denylist`. -/
def Ewk_Context_Menu_Item_Tag.denylisted (tag : Ewk_Context_Menu_Item_Tag) : Bool :=
  decide (tag ∈ denylist)

/-- The effect is a native reply to a suspended quota or permission request. -/
def Effect.isReply : Effect → Bool
  | Effect.ewk_view_exceeded_database_quota_reply _ _ => true
  | Effect.ewk_view_exceeded_indexed_database_quota_reply _ _ => true
  | Effect.ewk_view_exceeded_local_file_system_quota_reply _ _ => true
  | Effect.ewk_notification_permission_reply _ _ => true
  | Effect.ewk_geolocation_permission_reply _ _ => true
  | Effect.ewk_auth_challenge_credential_cancel _ => true
  | Effect.ewk_auth_challenge_credential_use _ _ _ => true
  | Effect.ewk_certificate_policy_decision_allowed_set _ _ => true
  | _ => false

/-- The effect applies a policy decision: `use` or `ignore`. -/
def Effect.isDecision : Effect → Bool
  | Effect.ewk_policy_decision_use _ => true
  | Effect.ewk_policy_decision_ignore _ => true
  | _ => false

/-- A listener that approves every navigation and every new window and leaves the context
menu enabled. -/
def permissiveListener : EventListener :=
  { OnDidNavigation := fun _ => true
    OnDidOpenWindow := fun _ => true
    OnContextMenuDisabled := false }

/-- A listener that refuses every navigation, approves new windows and disables the
context menu. -/
def refusingListener : EventListener :=
  { OnDidNavigation := fun _ => false
    OnDidOpenWindow := fun _ => true
    OnContextMenuDisabled := true }

/-- The effects that `after` has recorded beyond those of `before`. -/
def WebViewImpl.since (before after : WebViewImpl) : List Effect :=
  after.effects.drop before.effects.length

/-- Whether the navigation to `url` is allowed: no listener, or the listener's
`OnDidNavigation` says so. -/
def WebViewImpl.navigationAllowed (self : WebViewImpl) (url : String) : Bool :=
  match self.listener_ with
  | none => true
  | some listener => listener.OnDidNavigation url

/-- The effect suspends a native request. -/
def Effect.isSuspend : Effect → Bool
  | Effect.ewk_notification_permission_request_suspend _ => true
  | Effect.ewk_geolocation_permission_request_suspend _ => true
  | Effect.ewk_auth_challenge_suspend _ => true
  | Effect.ewk_certificate_policy_decision_suspend _ => true
  | _ => false

/-- The effect is a call of one of the listener's request methods, which hand a result
callback to the listener. -/
def Effect.isRequestToListener : Effect → Bool
  | Effect.OnQuotaExceed _ _ => true
  | Effect.OnNotificationPermissionRequest _ _ => true
  | Effect.OnGeolocationPermissionRequest _ _ => true
  | Effect.OnAuthenticationRequest _ _ _ => true
  | Effect.OnCertificateAllowRequest _ _ _ => true
  | _ => false

/-- Whether the listener disables the context menu: `disabled` of the customize callback. -/
def WebViewImpl.menuDisabled (self : WebViewImpl) : Bool :=
  match self.listener_ with
  | some listener => listener.OnContextMenuDisabled
  | none => false

/-- The effects of the question the customize callback puts to the listener, if any. -/
def WebViewImpl.menuAsked (self : WebViewImpl) : List Effect :=
  match self.listener_ with
  | some _ => [Effect.OnContextMenuDisabled]
  | none => []

/-- The index an effect passes to `ewk_context_menu_nth_item_get`, if it is such a call. -/
def Effect.nthIndex : Effect → Option Nat
  | Effect.ewk_context_menu_nth_item_get idx => some idx
  | _ => none

/-- The effects expected of examining the item `item.2` at the index `item.1`: the access,
and the removal if the menu is disabled or the item is of a denylisted kind. -/
def examine (disabled : Bool) (item : Nat × Ewk_Context_Menu_Item_Tag) : List Effect :=
  Effect.ewk_context_menu_nth_item_get item.1 ::
    (if disabled = true ∨ item.2.denylisted = true then
      [Effect.ewk_context_menu_item_remove item.1]
    else [])

end wrt

/-! # Properties -/

namespace wrt

/-- C9: the rotation round trip on the two remapped angles,
`ToNativeRotation(ToWebRotation(90)) = 90` and `ToNativeRotation(ToWebRotation(270)) = 270`. -/
theorem rotation_round_trip_remapped :
    ToNativeRotation (ToWebRotation 90) = 90 ∧ ToNativeRotation (ToWebRotation 270) = 270 := by
  decide

/-- C10, as stated, fails at r = -90: it is neither 90 nor 270, yet `ToNativeRotation`
sends it to 90, and so does the round trip. -/
theorem rotation_identity_fails_at_minus_90 :
    (-90 : Int) ≠ 90 ∧ (-90 : Int) ≠ 270 ∧
    ToNativeRotation (-90) = 90 ∧ ToNativeRotation (-90) ≠ -90 ∧
    ToNativeRotation (ToWebRotation (-90)) ≠ -90 := by
  decide

/-- C10, amended: for every integer r other than 90 and 270, `ToWebRotation r = r`; and
`ToNativeRotation r = r`, as well as the round trip `ToNativeRotation (ToWebRotation r) = r`,
hold exactly when r is not -90. -/
theorem rotation_identity_elsewhere (r : Int) (h90 : r ≠ 90) (h270 : r ≠ 270) :
    ToWebRotation r = r ∧
    (ToNativeRotation r = r ↔ r ≠ -90) ∧
    (ToNativeRotation (ToWebRotation r) = r ↔ r ≠ -90) := by
  have hweb : ToWebRotation r = r := by simp [ToWebRotation, h90, h270]
  have hnat : ToNativeRotation r = r ↔ r ≠ -90 := by
    by_cases hm : r = -90
    · subst hm
      simp [ToNativeRotation]
    · simp [ToNativeRotation, hm, h90]
  exact ⟨hweb, hnat, by rw [hweb]; exact hnat⟩

/-- Instance of `rotation_identity_elsewhere` at r = 180. -/
theorem rotation_identity_elsewhere_witness :
    (180 : Int) ≠ 90 ∧ (180 : Int) ≠ 270 ∧
    (ToWebRotation 180 = 180 ∧
      (ToNativeRotation 180 = 180 ↔ (180 : Int) ≠ -90) ∧
      (ToNativeRotation (ToWebRotation 180) = 180 ↔ (180 : Int) ≠ -90)) :=
  ⟨by decide, by decide, rotation_identity_elsewhere 180 (by decide) (by decide)⟩

end wrt

namespace extensions

/-! ## The entry points -/

theorem GetExtensionModule_alive (w : World) (h : w.alive = true) :
    GetExtensionModule w = (some w.module, w) := by
  simp only [World.alive, Bool.not_eq_true'] at h
  simp [GetExtensionModule, h]

theorem GetExtensionModule_dead (w : World) (h : w.alive = false) :
    GetExtensionModule w =
      (none, { w with log := w.log ++ ["Trying to use extension from already destroyed context!"] }) := by
  simp only [World.alive, Bool.not_eq_false'] at h
  simp [GetExtensionModule, h]

theorem Destructor_dead (w : World) : (XWalkExtensionModule.Destructor w).alive = false := by
  simp [XWalkExtensionModule.Destructor, World.alive, Value.IsUndefined]

theorem c_str_of_no_NUL (s : String) (h : ∀ c ∈ s.data, c ≠ NUL) : c_str s = s := by
  have : s.data.takeWhile (fun c => c != NUL) = s.data := by
    rw [List.takeWhile_eq_self_iff]
    intro c hc
    simpa using h c hc
  simp [c_str, this]

/-- C1: after the destructor has run, whatever the arguments, `postMessage`,
`sendSyncMessage`, `setMessageListener`, `sendRuntimeMessage` and `sendRuntimeAsyncMessage`
return `false` and `sendRuntimeSyncMessage` returns `undefined`; none of the six makes a
call on the extension client or the runtime-IPC client, and none changes the module's
fields (the message listener among them). -/
theorem entry_points_after_teardown (host : Host) (w : World) (info : List Value) :
    ((PostMessageCallback host (XWalkExtensionModule.Destructor w) info).1 = Value.boolean false ∧
      World.sameButLog (XWalkExtensionModule.Destructor w)
        (PostMessageCallback host (XWalkExtensionModule.Destructor w) info).2) ∧
    ((SendSyncMessageCallback host (XWalkExtensionModule.Destructor w) info).1 = Value.boolean false ∧
      World.sameButLog (XWalkExtensionModule.Destructor w)
        (SendSyncMessageCallback host (XWalkExtensionModule.Destructor w) info).2) ∧
    ((SetMessageListenerCallback (XWalkExtensionModule.Destructor w) info).1 = Value.boolean false ∧
      World.sameButLog (XWalkExtensionModule.Destructor w)
        (SetMessageListenerCallback (XWalkExtensionModule.Destructor w) info).2) ∧
    ((SendRuntimeMessageCallback host (XWalkExtensionModule.Destructor w) info).1 = Value.boolean false ∧
      World.sameButLog (XWalkExtensionModule.Destructor w)
        (SendRuntimeMessageCallback host (XWalkExtensionModule.Destructor w) info).2) ∧
    ((SendRuntimeSyncMessageCallback host (XWalkExtensionModule.Destructor w) info).1 = Value.undefined ∧
      World.sameButLog (XWalkExtensionModule.Destructor w)
        (SendRuntimeSyncMessageCallback host (XWalkExtensionModule.Destructor w) info).2) ∧
    ((SendRuntimeAsyncMessageCallback host (XWalkExtensionModule.Destructor w) info).1 = Value.boolean false ∧
      World.sameButLog (XWalkExtensionModule.Destructor w)
        (SendRuntimeAsyncMessageCallback host (XWalkExtensionModule.Destructor w) info).2) := by
  have hd := GetExtensionModule_dead _ (Destructor_dead w)
  simp [PostMessageCallback, SendSyncMessageCallback, SetMessageListenerCallback,
    SendRuntimeMessageCallback, SendRuntimeSyncMessageCallback,
    SendRuntimeAsyncMessageCallback, hd, World.sameButLog]

/-- C3: `postMessage` returns `true` exactly when the module is alive and there is exactly
one argument, and `false` otherwise; in the first case, the argument list being `[v]`, the
calls grow by the single call `PostMessageToNative(instance_id_, string form of v)`, in
every other case the calls are unchanged. -/
theorem postMessage_true_iff (host : Host) (w : World) (info : List Value) :
    ((PostMessageCallback host w info).1 = Value.boolean true ↔
      (w.alive = true ∧ info.length = 1)) ∧
    ((PostMessageCallback host w info).1 = Value.boolean false ↔
      ¬ (w.alive = true ∧ info.length = 1)) ∧
    (PostMessageCallback host w info).2.calls =
      (match w.alive, info with
      | true, [v] =>
        w.calls ++ [Call.PostMessageToNative w.module.instance_id_ (host.Utf8Value v)]
      | _, _ => w.calls) := by
  cases halive : w.alive with
  | true =>
    have ha := GetExtensionModule_alive w halive
    match info with
    | [] => simp [PostMessageCallback, ha]
    | [v] => simp [PostMessageCallback, ha, arg]
    | _ :: _ :: _ => simp [PostMessageCallback, ha]
  | false =>
    have hd := GetExtensionModule_dead w halive
    simp [PostMessageCallback, hd]

/-- C4, as stated, fails: on a live module and with one argument, a reply of the five
characters `a`, `b`, NUL, `c`, `d` is not empty, yet script receives the string "ab" and
not the reply. -/
theorem sendSyncMessage_reply_cut_at_NUL :
    (XWalkExtensionModule.New 1 "echo").alive = true ∧
    nulHost.SendSyncMessageToNative (XWalkExtensionModule.New 1 "echo").calls
      (XWalkExtensionModule.New 1 "echo").module.instance_id_
      (nulHost.Utf8Value (Value.string "ping")) = "ab\x00cd" ∧
    ("ab\x00cd" : String) ≠ "" ∧
    (SendSyncMessageCallback nulHost (XWalkExtensionModule.New 1 "echo")
      [Value.string "ping"]).1 = Value.string "ab" ∧
    (SendSyncMessageCallback nulHost (XWalkExtensionModule.New 1 "echo")
      [Value.string "ping"]).1 ≠ Value.string "ab\x00cd" := by
  decide

/-- C4, amended: on a live module and with exactly one argument `v`, `sendSyncMessage`
returns, when the reply of `SendSyncMessageToNative` is not empty, the string made of the
characters of the reply before its first NUL, which is the whole reply when the reply
holds no NUL; it leaves the return value `undefined` when the reply is empty. -/
theorem sendSyncMessage_reply (host : Host) (w : World) (v : Value) (halive : w.alive = true) :
    (host.SendSyncMessageToNative w.calls w.module.instance_id_ (host.Utf8Value v) ≠ "" →
      (SendSyncMessageCallback host w [v]).1 = Value.string
        (String.mk
          ((host.SendSyncMessageToNative w.calls w.module.instance_id_
            (host.Utf8Value v)).data.takeWhile (fun c => c != Char.ofNat 0)))) ∧
    (host.SendSyncMessageToNative w.calls w.module.instance_id_ (host.Utf8Value v) = "" →
      (SendSyncMessageCallback host w [v]).1 = Value.undefined) ∧
    (host.SendSyncMessageToNative w.calls w.module.instance_id_ (host.Utf8Value v) ≠ "" →
      (∀ c ∈ (host.SendSyncMessageToNative w.calls w.module.instance_id_
          (host.Utf8Value v)).data, c ≠ Char.ofNat 0) →
      (SendSyncMessageCallback host w [v]).1 = Value.string
        (host.SendSyncMessageToNative w.calls w.module.instance_id_ (host.Utf8Value v))) := by
  have ha := GetExtensionModule_alive w halive
  refine ⟨?_, ?_, ?_⟩
  · intro h
    simp [SendSyncMessageCallback, ha, arg, h, c_str, NUL]
  · intro h
    simp [SendSyncMessageCallback, ha, arg, h]
  · intro h hno
    have hc := c_str_of_no_NUL _ hno
    simp [SendSyncMessageCallback, ha, arg, h, hc]

/-- Instance of `sendSyncMessage_reply`: a fresh module and the echoing host; the message
"ping" comes back as the string "ping". -/
theorem sendSyncMessage_reply_witness :
    (XWalkExtensionModule.New 1 "echo").alive = true ∧
    (SendSyncMessageCallback echoHost (XWalkExtensionModule.New 1 "echo")
      [Value.string "ping"]).1 = Value.string "ping" :=
  ⟨rfl, by
    have h := (sendSyncMessage_reply echoHost (XWalkExtensionModule.New 1 "echo")
      (Value.string "ping") rfl).1 (by decide)
    rw [h]
    decide⟩

/-- C5, as stated, fails: with no argument on a live module `sendSyncMessage` returns the
boolean `false`, which is neither a string nor `undefined`, and `sendRuntimeSyncMessage`
returns `undefined`, which is not a string; after the destructor `sendSyncMessage` returns
the boolean `false` for a well-formed call too. -/
theorem sync_return_kinds_counterexample :
    (SendSyncMessageCallback echoHost (XWalkExtensionModule.New 1 "echo") []).1 =
      Value.boolean false ∧
    ¬ ((SendSyncMessageCallback echoHost (XWalkExtensionModule.New 1 "echo") []).1.IsString = true ∨
      (SendSyncMessageCallback echoHost (XWalkExtensionModule.New 1 "echo") []).1.IsUndefined = true) ∧
    (SendRuntimeSyncMessageCallback echoHost (XWalkExtensionModule.New 1 "echo") []).1 =
      Value.undefined ∧
    (SendRuntimeSyncMessageCallback echoHost (XWalkExtensionModule.New 1 "echo") []).1.IsString =
      false ∧
    (SendSyncMessageCallback echoHost
      (XWalkExtensionModule.Destructor (XWalkExtensionModule.New 1 "echo"))
      [Value.string "ping"]).1 = Value.boolean false := by
  decide

/-- C5, amended: `sendSyncMessage` returns a string or `undefined` exactly when the module
is alive and the call has exactly one argument, and the boolean `false` in every other
case; `sendRuntimeSyncMessage` returns a string exactly when the module is alive and the
call has at least one argument, and `undefined` in every other case, so it never returns a
boolean. -/
theorem sync_return_kinds (host : Host) (w : World) (info : List Value) :
    (((SendSyncMessageCallback host w info).1.IsString = true ∨
        (SendSyncMessageCallback host w info).1.IsUndefined = true) ↔
      (w.alive = true ∧ info.length = 1)) ∧
    ((SendSyncMessageCallback host w info).1 = Value.boolean false ↔
      ¬ (w.alive = true ∧ info.length = 1)) ∧
    ((SendRuntimeSyncMessageCallback host w info).1.IsString = true ↔
      (w.alive = true ∧ 1 ≤ info.length)) ∧
    ((SendRuntimeSyncMessageCallback host w info).1 = Value.undefined ↔
      ¬ (w.alive = true ∧ 1 ≤ info.length)) ∧
    (SendRuntimeSyncMessageCallback host w info).1.IsBoolean = false := by
  cases halive : w.alive with
  | true =>
    have ha := GetExtensionModule_alive w halive
    have h1 : info.length < 1 ↔ ¬ 1 ≤ info.length := by omega
    refine ⟨?_, ?_, ?_, ?_, ?_⟩
    · by_cases hl : info.length = 1
      · by_cases hr : host.SendSyncMessageToNative w.calls w.module.instance_id_
            (host.Utf8Value (arg info 0)) = ""
        · simp [SendSyncMessageCallback, ha, hl, hr, Value.IsUndefined]
        · simp [SendSyncMessageCallback, ha, hl, hr, Value.IsString]
      · simp [SendSyncMessageCallback, ha, hl, Value.IsString, Value.IsUndefined]
    · by_cases hl : info.length = 1
      · by_cases hr : host.SendSyncMessageToNative w.calls w.module.instance_id_
            (host.Utf8Value (arg info 0)) = ""
        · simp [SendSyncMessageCallback, ha, hl, hr]
        · simp [SendSyncMessageCallback, ha, hl, hr]
      · simp [SendSyncMessageCallback, ha, hl]
    · by_cases hl : info.length < 1
      · simp [SendRuntimeSyncMessageCallback, ha, hl, Value.IsString, h1.mp hl]
      · simp [SendRuntimeSyncMessageCallback, ha, hl, Value.IsString, not_not.mp (mt h1.mpr hl)]
    · by_cases hl : info.length < 1
      · simp [SendRuntimeSyncMessageCallback, ha, hl, h1.mp hl]
      · simp [SendRuntimeSyncMessageCallback, ha, hl, not_not.mp (mt h1.mpr hl)]
    · by_cases hl : info.length < 1
      · simp [SendRuntimeSyncMessageCallback, ha, hl, Value.IsBoolean]
      · simp [SendRuntimeSyncMessageCallback, ha, hl, Value.IsBoolean]
  | false =>
    have hd := GetExtensionModule_dead w halive
    simp [SendSyncMessageCallback, SendRuntimeSyncMessageCallback, hd, Value.IsString,
      Value.IsUndefined, Value.IsBoolean]

/-! ## CodeToEnsureNamespace and WrapAPICode -/

theorem findAux_bounds (c : Char) (l : List Char) (i p : Nat)
    (h : findAux c l i = some p) : i ≤ p ∧ p < i + l.length := by
  induction l generalizing i with
  | nil => simp [findAux] at h
  | cons x xs ih =>
    simp only [findAux] at h
    split at h
    · simp only [Option.some.injEq] at h
      subst h
      simp
    · have := ih (i + 1) h
      simp only [List.length_cons]
      omega

theorem find_bounds (s : String) (c : Char) (pos p : Nat)
    (h : find s c pos = some p) : pos ≤ p ∧ p < s.length := by
  have hb := findAux_bounds c (s.data.drop pos) pos p h
  simp only [List.length_drop] at hb
  have : s.length = s.data.length := rfl
  omega

theorem dotsAux_of_findAux_none (l : List Char) (i : Nat) (h : findAux '.' l i = none) :
    dotsAux l i = [] := by
  induction l generalizing i with
  | nil => rfl
  | cons x xs ih =>
    simp only [findAux] at h
    split at h
    · simp at h
    · rename_i hx
      simp [dotsAux, hx, ih (i + 1) h]

theorem dotsAux_of_findAux_some (l : List Char) (i p : Nat) (h : findAux '.' l i = some p) :
    dotsAux l i = p :: dotsAux (l.drop (p - i + 1)) (p + 1) := by
  induction l generalizing i with
  | nil => simp [findAux] at h
  | cons x xs ih =>
    simp only [findAux] at h
    split at h
    · rename_i hx
      simp only [Option.some.injEq] at h
      subst h
      simp [dotsAux, hx]
    · rename_i hx
      have hb := findAux_bounds '.' xs (i + 1) p h
      have := ih (i + 1) h
      have e : p - i + 1 = (p - (i + 1) + 1) + 1 := by omega
      rw [e, List.drop_succ_cons]
      simp [dotsAux, hx, this]

theorem loop_eq (name : String) (n : Nat) : ∀ (pos : Nat) (result : String),
    name.length + 1 - pos ≤ n →
    CodeToEnsureNamespace.loop name pos result =
      result ++ (concatAll ((dotsAux (name.data.drop pos) pos).map
        (fun p => guarded (substr0 name p))) ++ (name ++ " = \x7b\x7d;")) := by
  induction n with
  | zero =>
    intro pos result hn
    rw [CodeToEnsureNamespace.loop]
    split
    · rename_i h
      rw [dotsAux_of_findAux_none _ _ h]
      simp [concatAll]
    · rename_i p h
      have := find_bounds name '.' pos p h
      omega
  | succ n ih =>
    intro pos result hn
    rw [CodeToEnsureNamespace.loop]
    split
    · rename_i h
      rw [dotsAux_of_findAux_none _ _ h]
      simp [concatAll]
    · rename_i p h
      have hb := find_bounds name '.' pos p h
      rw [ih (p + 1) _ (by omega)]
      rw [dotsAux_of_findAux_some _ _ _ h]
      have e : List.drop (p - pos + 1) (List.drop pos name.data) = List.drop (p + 1) name.data := by
        rw [List.drop_drop]
        congr 1
        omega
      rw [e]
      simp [concatAll, guarded, String.append_assoc]


theorem dotsAux_eq_filter (l : List Char) (i : Nat) :
    dotsAux l i =
      ((List.range l.length).filter (fun k => l[k]? = some '.')).map (fun k => k + i) := by
  induction l generalizing i with
  | nil => simp [dotsAux]
  | cons x xs ih =>
    rw [List.length_cons, List.range_succ_eq_map, List.filter_cons, List.filter_map]
    have hcomp : ((fun k => decide ((x :: xs)[k]? = some '.')) ∘ Nat.succ) =
        (fun k => decide (xs[k]? = some '.')) := by
      funext k
      simp
    rw [hcomp, dotsAux, ih (i + 1)]
    have hmap : List.map (fun k => k + (i + 1))
          (List.filter (fun k => decide (xs[k]? = some '.')) (List.range xs.length)) =
        List.map (fun k => k + i) (List.map Nat.succ
          (List.filter (fun k => decide (xs[k]? = some '.')) (List.range xs.length))) := by
      rw [List.map_map]
      apply List.map_congr_left
      intro k _
      simp only [Function.comp_apply, Nat.succ_eq_add_one]
      omega
    by_cases hx : x = '.'
    · simp [hx, hmap]
    · simp [hx, hmap]

theorem dotsAux_zero (name : String) : dotsAux name.data 0 = dotPositions name := by
  rw [dotsAux_eq_filter]
  unfold dotPositions
  have hlen : name.length = name.data.length := rfl
  rw [hlen]
  simp only [Nat.add_zero, List.map_id']

/-- The result of `CodeToEnsureNamespace`, for every name: one guarded statement for every
dot of the name, in the order of the dots, on the prefix that ends before the dot, and
then the unguarded assignment of a fresh object to the full name. -/
theorem CodeToEnsureNamespace_eq (name : String) :
    CodeToEnsureNamespace name =
      concatAll ((dotPositions name).map (fun p => guarded (substr0 name p))) ++
        (name ++ " = \x7b\x7d;") := by
  unfold CodeToEnsureNamespace
  rw [loop_eq name _ 0 "" (le_refl _), List.drop_zero, dotsAux_zero]
  apply String.ext
  simp only [String.data_append]
  rfl

theorem dotsAux_length (l : List Char) (i : Nat) : (dotsAux l i).length = l.count '.' := by
  induction l generalizing i with
  | nil => rfl
  | cons x xs ih =>
    by_cases hx : x = '.'
    · subst hx
      simp [dotsAux, ih]
    · have hne : (x == '.') = false := by simpa using hx
      simp [dotsAux, hx, ih, List.count_cons, hne]

theorem dotPositions_length (name : String) :
    (dotPositions name).length = name.data.count '.' := by
  rw [← dotsAux_zero, dotsAux_length]

theorem mem_dotPositions (name : String) (p : Nat) :
    p ∈ dotPositions name ↔ name.data[p]? = some '.' := by
  have hlen : name.length = name.data.length := rfl
  unfold dotPositions
  rw [List.mem_filter, List.mem_range, hlen]
  constructor
  · rintro ⟨_, h⟩
    simpa using h
  · intro h
    refine ⟨?_, by simpa using h⟩
    by_contra hge
    rw [List.getElem?_eq_none (Nat.le_of_not_lt hge)] at h
    simp at h

theorem dotPositions_pairwise (name : String) :
    (dotPositions name).Pairwise (fun p q => p < q) := by
  unfold dotPositions
  exact (List.pairwise_lt_range _).filter _

theorem foldl_append_string (l : List String) (acc : String) :
    l.foldl (fun r s => r ++ s) acc = acc ++ l.foldl (fun r s => r ++ s) "" := by
  induction l generalizing acc with
  | nil => simp
  | cons x xs ih =>
    rw [List.foldl_cons, List.foldl_cons, ih (acc ++ x), ih ("" ++ x), String.empty_append,
      String.append_assoc]

theorem concatAll_eq_join (l : List String) : concatAll l = String.join l := by
  induction l with
  | nil => rfl
  | cons x xs ih =>
    unfold String.join at ih ⊢
    rw [concatAll, ih, List.foldl_cons, foldl_append_string xs ("" ++ x), String.empty_append]

/-- The result of `CodeToEnsureNamespace` written with library functions only: the
prefix before the dot at position `p` is `String.mk (name.data.take p)`. -/
theorem CodeToEnsureNamespace_join (name : String) :
    CodeToEnsureNamespace name =
      String.join ((dotPositions name).map
        (fun p => String.mk (name.data.take p) ++ " = " ++ String.mk (name.data.take p) ++
          " || \x7b\x7d; ")) ++
        (name ++ " = \x7b\x7d;") := by
  rw [CodeToEnsureNamespace_eq, concatAll_eq_join]
  rfl

theorem vsnprintf_of_fits (out : String) (h : out.length < 32 * 1024 * 1024) :
    vsnprintf out = (out.length : Int) := by
  have : (out.length : Int) ≤ INT_MAX := by
    simp only [INT_MAX]; omega
  simp only [vsnprintf, this, if_true]

theorem grow_of_fits (dst out : String) (mem_length : Nat) (hpos : 0 < mem_length)
    (h : out.length < 32 * 1024 * 1024) :
    StringAppendVT.grow dst out mem_length hpos = dst ++ out := by
  rw [StringAppendVT.grow]
  simp only [vsnprintf_of_fits out h]
  have h0 : ¬ (out.length : Int) < 0 := by omega
  have h1 : ((out.length : Int) + 1).toNat = out.length + 1 := by omega
  simp only [h0, if_false, h1]
  have h2 : ¬ (out.length + 1 > 32 * 1024 * 1024) := by omega
  have h3 : (0 : Int) ≤ (out.length : Int) ∧ (out.length : Int) < ((out.length + 1 : Nat) : Int) := by
    constructor <;> omega
  simp only [h2, h3, dif_neg, dif_pos, not_false_eq_true, and_self]

theorem StringPrintf_of_fits (format : String) (args : List String)
    (h : (⟨vformat format.data args⟩ : String).length < 32 * 1024 * 1024) :
    StringPrintf format args = ⟨vformat format.data args⟩ := by
  unfold StringPrintf StringAppendVT
  generalize (⟨vformat format.data args⟩ : String) = out at h ⊢
  simp only [grow_of_fits _ out _ _ h]
  split <;> simp

theorem grow_of_negative (dst out : String) (hneg : vsnprintf out < 0) (n : Nat) :
    ∀ (mem_length : Nat) (hpos : 0 < mem_length), 32 * 1024 * 1024 + 1 - mem_length ≤ n →
      StringAppendVT.grow dst out mem_length hpos = dst := by
  induction n with
  | zero =>
    intro mem_length hpos hn
    rw [StringAppendVT.grow]
    simp only [hneg, if_true]
    have : mem_length * 2 > 32 * 1024 * 1024 := by omega
    simp only [this, dif_pos]
  | succ n ih =>
    intro mem_length hpos hn
    rw [StringAppendVT.grow]
    simp only [hneg, if_true]
    by_cases hbig : mem_length * 2 > 32 * 1024 * 1024
    · simp only [hbig, dif_pos]
    · have hnot : ¬ (0 ≤ vsnprintf out ∧ vsnprintf out < ((mem_length * 2 : Nat) : Int)) := by
        intro h
        omega
      simp only [hbig, hnot, dif_neg, not_false_eq_true]
      exact ih _ _ (by omega)

theorem StringPrintf_of_not_fits (format : String) (args : List String)
    (h : 32 * 1024 * 1024 ≤ (⟨vformat format.data args⟩ : String).length) :
    StringPrintf format args = "" := by
  unfold StringPrintf StringAppendVT
  generalize (⟨vformat format.data args⟩ : String) = out at h ⊢
  by_cases hmax : (out.length : Int) ≤ INT_MAX
  · have hv : vsnprintf out = (out.length : Int) := by simp only [vsnprintf, hmax, if_true]
    have h1 : ¬ (0 ≤ vsnprintf out ∧ vsnprintf out < 1024) := by
      rw [hv]
      omega
    simp only [h1, if_false]
    rw [StringAppendVT.grow]
    simp only [hv]
    have h0 : ¬ (out.length : Int) < 0 := by omega
    have h2 : ((out.length : Int) + 1).toNat = out.length + 1 := by omega
    have h3 : out.length + 1 > 32 * 1024 * 1024 := by omega
    simp only [h0, if_false, h2, h3, dif_pos]
  · have hv : vsnprintf out = -1 := by simp only [vsnprintf, hmax, if_false]
    have hneg : vsnprintf out < 0 := by rw [hv]; decide
    have h1 : ¬ (0 ≤ vsnprintf out ∧ vsnprintf out < 1024) := by
      rw [hv]
      decide
    simp only [h1, if_false]
    exact grow_of_negative "" out hneg _ 1024 (by decide) (le_refl _)

theorem vformat_wrap (a b c : String) :
    vformat kWrapAPICodeFormat.data [a, b, c] =
      "var ".data ++ (a.data ++ (WrapAPICode.middle.data ++ (b.data ++
        ("\n\x7d)();".data ++ (c.data ++ " = exports; \x7d);".data))))) := by
  rfl

theorem expansion_eq (code name : String) :
    WrapAPICode.expansion code name =
      WrapAPICode.prologue name ++ (c_str code ++ WrapAPICode.epilogue name) := by
  apply String.ext
  simp only [WrapAPICode.expansion, vformat_wrap, WrapAPICode.prologue, WrapAPICode.epilogue,
    String.data_append, List.append_assoc]

theorem WrapAPICode_eq (code name : String)
    (hfit : (WrapAPICode.expansion code name).length < 32 * 1024 * 1024) :
    WrapAPICode code name =
      WrapAPICode.prologue name ++ (c_str code ++ WrapAPICode.epilogue name) := by
  rw [← expansion_eq]
  exact StringPrintf_of_fits _ _ hfit

theorem WrapAPICode_of_not_fits (code name : String)
    (h : 32 * 1024 * 1024 ≤ (WrapAPICode.expansion code name).length) :
    WrapAPICode code name = "" :=
  StringPrintf_of_not_fits _ _ h

theorem expansion_length_ge (code name : String) :
    (c_str code).length ≤ (WrapAPICode.expansion code name).length := by
  rw [expansion_eq]
  simp only [String.length_append]
  omega

theorem c_str_replicate (n : Nat) : c_str ⟨List.replicate n 'x'⟩ = ⟨List.replicate n 'x'⟩ := by
  apply c_str_of_no_NUL
  intro c hc
  rw [List.eq_of_mem_replicate hc]
  decide

theorem WrapAPICode_oversized :
    WrapAPICode ⟨List.replicate (32 * 1024 * 1024) 'x'⟩ "a.b.c" = "" := by
  apply WrapAPICode_of_not_fits
  refine le_trans ?_ (expansion_length_ge _ _)
  rw [c_str_replicate]
  show 32 * 1024 * 1024 ≤ (List.replicate (32 * 1024 * 1024) 'x').length
  rw [List.length_replicate]

theorem mem_c_str (s : String) (c : Char) (h : c ∈ (c_str s).data) : c ∈ s.data :=
  (List.takeWhile_sublist _).subset h

theorem mem_concatAll (l : List String) (c : Char) (h : c ∈ (concatAll l).data) :
    ∃ s ∈ l, c ∈ s.data := by
  induction l with
  | nil => simp [concatAll] at h
  | cons s rest ih =>
    simp only [concatAll, String.data_append, List.mem_append] at h
    rcases h with h | h
    · exact ⟨s, List.mem_cons_self _ _, h⟩
    · obtain ⟨t, ht, hc⟩ := ih h
      exact ⟨t, List.mem_cons_of_mem _ ht, hc⟩

theorem mem_CodeToEnsureNamespace (name : String) (c : Char)
    (h : c ∈ (CodeToEnsureNamespace name).data) :
    c ∈ name.data ∨ c ∈ " =|\x7b\x7d;".data := by
  have l1 : ∀ c ∈ " = ".data, c ∈ " =|\x7b\x7d;".data := by decide
  have l2 : ∀ c ∈ " || \x7b\x7d; ".data, c ∈ " =|\x7b\x7d;".data := by decide
  have l3 : ∀ c ∈ " = \x7b\x7d;".data, c ∈ " =|\x7b\x7d;".data := by decide
  rw [CodeToEnsureNamespace_eq] at h
  simp only [String.data_append, List.mem_append] at h
  rcases h with h | h | h
  · obtain ⟨s, hs, hc⟩ := mem_concatAll _ _ h
    simp only [List.mem_map] at hs
    obtain ⟨p, _, rfl⟩ := hs
    simp only [guarded, substr0, String.data_append, List.mem_append] at hc
    rcases hc with ((hc | hc) | hc) | hc
    · exact Or.inl (List.mem_of_mem_take hc)
    · exact Or.inr (l1 c hc)
    · exact Or.inl (List.mem_of_mem_take hc)
    · exact Or.inr (l2 c hc)
  · exact Or.inl h
  · exact Or.inr (l3 c h)

theorem prologue_no_newline (name : String) (hname : '\n' ∉ name.data) :
    '\n' ∉ (WrapAPICode.prologue name).data := by
  intro h
  simp only [WrapAPICode.prologue, String.data_append, List.mem_append] at h
  rcases h with h | h | h
  · revert h; decide
  · rcases mem_CodeToEnsureNamespace name _ (mem_c_str _ _ h) with h' | h'
    · exact hname h'
    · revert h'; decide
  · revert h; decide


theorem WrapAPICode_lines_c_str (code name : String) (hname : '\n' ∉ name.data)
    (hfit : (WrapAPICode.expansion code name).length < 32 * 1024 * 1024) :
    WrapAPICode code name =
      WrapAPICode.prologue name ++ (c_str code ++ WrapAPICode.epilogue name) ∧
    '\n' ∉ (WrapAPICode.prologue name).data ∧
    lineOf (WrapAPICode code name) (WrapAPICode.prologue name).length = 1 ∧
    (∀ i, i < (c_str code).length →
      (WrapAPICode code name).data[(WrapAPICode.prologue name).length + i]? =
        (c_str code).data[i]? ∧
      lineOf (WrapAPICode code name) ((WrapAPICode.prologue name).length + i) =
        lineOf (c_str code) i) ∧
    ((∀ c ∈ code.data, c ≠ NUL) → c_str code = code) := by
  have hP := prologue_no_newline name hname
  have hcount : List.count '\n' (WrapAPICode.prologue name).data = 0 :=
    List.count_eq_zero.mpr hP
  have hlen : (WrapAPICode.prologue name).length = (WrapAPICode.prologue name).data.length := rfl
  have hline : ∀ i, i ≤ (c_str code).data.length →
      lineOf (WrapAPICode code name) ((WrapAPICode.prologue name).length + i) =
        lineOf (c_str code) i := by
    intro i hi
    simp only [lineOf, WrapAPICode_eq code name hfit, String.data_append, hlen]
    rw [List.take_append, List.take_append_of_le_length hi, List.count_append, hcount]
    omega
  refine ⟨WrapAPICode_eq code name hfit, hP, ?_, ?_, c_str_of_no_NUL code⟩
  · have := hline 0 (Nat.zero_le _)
    simp only [Nat.add_zero] at this
    rw [this]
    simp [lineOf]
  · intro i hi
    have hi' : i < (c_str code).data.length := hi
    refine ⟨?_, hline i (Nat.le_of_lt hi')⟩
    simp only [WrapAPICode_eq code name hfit, String.data_append, hlen]
    rw [List.getElem?_append_right (Nat.le_add_right _ _), Nat.add_sub_cancel_left,
      List.getElem?_append_left hi']

theorem c_str_data (s : String) :
    (c_str s).data = s.data.takeWhile (fun c => c != Char.ofNat 0) := rfl

theorem CodeToEnsureNamespace_a : CodeToEnsureNamespace "a" = "a = \x7b\x7d;" := by
  rw [CodeToEnsureNamespace_eq]
  decide

/-- C6, as stated, fails: the source of the five characters `x`, NUL, `y`, newline, `z`,
wrapped for the extension "a", fits the formatter, and its character `z`, on line 2 of the
source, occurs nowhere in the wrapped program, which holds only the `x` of the source. -/
theorem WrapAPICode_drops_source_after_NUL :
    '\n' ∉ "a".data ∧
    (WrapAPICode.expansion "x\x00y\nz" "a").length < 32 * 1024 * 1024 ∧
    "x\x00y\nz".data[4]? = some 'z' ∧
    lineOf "x\x00y\nz" 4 = 2 ∧
    'z' ∉ (WrapAPICode "x\x00y\nz" "a").data ∧
    WrapAPICode "x\x00y\nz" "a" =
      WrapAPICode.prologue "a" ++ ("x" ++ WrapAPICode.epilogue "a") := by
  have hfit : (WrapAPICode.expansion "x\x00y\nz" "a").length < 32 * 1024 * 1024 := by
    rw [expansion_eq, WrapAPICode.prologue, CodeToEnsureNamespace_a]
    decide
  refine ⟨by decide, hfit, by decide, by decide, ?_, ?_⟩
  · rw [WrapAPICode_eq _ _ hfit, WrapAPICode.prologue, CodeToEnsureNamespace_a]
    decide
  · rw [WrapAPICode_eq _ _ hfit]
    rfl

/-- C6, amended: for every extension source and every extension name without a newline
whose wrapped form fits the size limit of the formatter, the wrapped program is the
prologue, then the characters of the source before its first NUL (the whole source when it
holds none), then the epilogue; the prologue holds no newline; hence the source starts on
line 1 of the wrapped program, and every character of the source before its first NUL
stands in the wrapped program behind the prologue with as many newlines before it as in
the source: a character on line N of the source is on line N of the wrapped program. -/
theorem WrapAPICode_keeps_line_numbers (code name : String) (hname : '\n' ∉ name.data)
    (hfit : (WrapAPICode.expansion code name).length < 32 * 1024 * 1024) :
    WrapAPICode code name =
      WrapAPICode.prologue name ++
        (String.mk (code.data.takeWhile (fun c => c != Char.ofNat 0)) ++
          WrapAPICode.epilogue name) ∧
    '\n' ∉ (WrapAPICode.prologue name).data ∧
    ((WrapAPICode code name).data.take (WrapAPICode.prologue name).data.length).count '\n' = 0 ∧
    lineOf (WrapAPICode code name) (WrapAPICode.prologue name).length = 1 ∧
    (∀ i, i < (code.data.takeWhile (fun c => c != Char.ofNat 0)).length →
      (WrapAPICode code name).data[(WrapAPICode.prologue name).data.length + i]? =
        code.data[i]? ∧
      ((WrapAPICode code name).data.take
          ((WrapAPICode.prologue name).data.length + i)).count '\n' =
        (code.data.take i).count '\n' ∧
      lineOf (WrapAPICode code name) ((WrapAPICode.prologue name).length + i) =
        lineOf code i) ∧
    ((∀ c ∈ code.data, c ≠ Char.ofNat 0) →
      code.data.takeWhile (fun c => c != Char.ofNat 0) = code.data) := by
  obtain ⟨heq, hP, hfirst, hchars, hno⟩ := WrapAPICode_lines_c_str code name hname hfit
  have hlen : (WrapAPICode.prologue name).length = (WrapAPICode.prologue name).data.length := rfl
  obtain ⟨r, hr⟩ := List.takeWhile_prefix (l := code.data) (fun c => c != Char.ofNat 0)
  have hget : ∀ i, i < (code.data.takeWhile (fun c => c != Char.ofNat 0)).length →
      (c_str code).data[i]? = code.data[i]? := by
    intro i hi
    rw [c_str_data]
    conv_rhs => rw [← hr]
    rw [List.getElem?_append_left hi]
  have htake : ∀ i, i ≤ (code.data.takeWhile (fun c => c != Char.ofNat 0)).length →
      (c_str code).data.take i = code.data.take i := by
    intro i hi
    rw [c_str_data]
    conv_rhs => rw [← hr]
    rw [List.take_append_of_le_length hi]
  have hline : ∀ i, i ≤ (code.data.takeWhile (fun c => c != Char.ofNat 0)).length →
      lineOf (c_str code) i = lineOf code i := by
    intro i hi
    unfold lineOf
    rw [htake i hi]
  have hfirst' : ((WrapAPICode code name).data.take
      (WrapAPICode.prologue name).data.length).count '\n' = 0 := by
    have h1 := hfirst
    unfold lineOf at h1
    rw [hlen] at h1
    omega
  refine ⟨heq, hP, hfirst', hfirst, ?_, ?_⟩
  · intro i hi
    have hi' : i < (c_str code).length := hi
    obtain ⟨h1, h2⟩ := hchars i hi'
    rw [hlen] at h1 h2
    refine ⟨h1.trans (hget i hi), ?_, ?_⟩
    · have h3 := h2.trans (hline i (Nat.le_of_lt hi))
      unfold lineOf at h3
      omega
    · rw [hlen]
      exact h2.trans (hline i (Nat.le_of_lt hi))
  · intro hall
    have := hno hall
    rw [← c_str_data, this]

theorem CodeToEnsureNamespace_a_b : CodeToEnsureNamespace "a.b" = "a = a || \x7b\x7d; a.b = \x7b\x7d;" := by
  rw [CodeToEnsureNamespace_eq]
  decide

/-- Instance of `WrapAPICode_keeps_line_numbers`: the two-line source "f();\ng();" wrapped
for the extension "a.b"; the character `g` at offset 5 of the source, on line 2, is on
line 2 of the wrapped program. -/
theorem WrapAPICode_keeps_line_numbers_witness :
    '\n' ∉ "a.b".data ∧
    (WrapAPICode.expansion "f();\ng();" "a.b").length < 32 * 1024 * 1024 ∧
    lineOf (WrapAPICode "f();\ng();" "a.b") ((WrapAPICode.prologue "a.b").length + 5) = 2 :=
  ⟨by decide,
    by rw [expansion_eq, WrapAPICode.prologue, CodeToEnsureNamespace_a_b]; decide,
    by
      rw [((WrapAPICode_keeps_line_numbers "f();\ng();" "a.b" (by decide)
        (by rw [expansion_eq, WrapAPICode.prologue, CodeToEnsureNamespace_a_b]; decide)).2.2.2.2.1 5
          (by decide)).2.2]
      decide⟩


theorem concatAll_append_singleton (l : List String) (s : String) :
    concatAll (l ++ [s]) = concatAll l ++ s := by
  induction l with
  | nil =>
    apply String.ext
    simp [concatAll]
  | cons t rest ih =>
    show t ++ concatAll (rest ++ [s]) = (t ++ concatAll rest) ++ s
    rw [ih, String.append_assoc]

theorem CodeToEnsureNamespace_a_b_c :
    CodeToEnsureNamespace "a.b.c" =
      "a = a || \x7b\x7d; a.b = a.b || \x7b\x7d; a.b.c = \x7b\x7d;" := by
  rw [CodeToEnsureNamespace_eq]
  decide

/-- C7, as stated, fails: for the name "a.b" the code guards only the prefix "a" and
assigns a fresh object to the full name, whereas the chain of the specification guards the
full name too. -/
theorem namespace_full_name_not_guarded :
    CodeToEnsureNamespace "a.b" = "a = a || \x7b\x7d; a.b = \x7b\x7d;" ∧
    specGuardedChain "a.b" = "a = a || \x7b\x7d; a.b = a.b || \x7b\x7d; " ∧
    CodeToEnsureNamespace "a.b" ≠ specGuardedChain "a.b" := by
  rw [CodeToEnsureNamespace_a_b]
  decide

/-- C7, amended: for every extension name, the code produced by `CodeToEnsureNamespace` is
one guarded statement `p = p || {}; ` for every prefix p of the name that ends just before
a dot (p is the first `i` characters of the name, for every position `i` that holds a
`'.'`, in increasing order), followed by the unguarded statement `name = {};` for the full
name; it is the chain of the specification with the last statement, the one for the full
name, replaced by the unguarded assignment. -/
theorem namespace_chain_guards_proper_prefixes (name : String) :
    CodeToEnsureNamespace name =
      String.join ((dotPositions name).map
        (fun p => String.mk (name.data.take p) ++ " = " ++ String.mk (name.data.take p) ++
          " || \x7b\x7d; ")) ++
        (name ++ " = \x7b\x7d;") ∧
    (∀ p, p ∈ dotPositions name ↔ name.data[p]? = some '.') ∧
    (dotPositions name).Pairwise (fun p q => p < q) ∧
    specGuardedChain name =
      String.join ((dotPositions name).map
        (fun p => String.mk (name.data.take p) ++ " = " ++ String.mk (name.data.take p) ++
          " || \x7b\x7d; ")) ++
        (name ++ " = " ++ name ++ " || \x7b\x7d; ") := by
  refine ⟨CodeToEnsureNamespace_join name, mem_dotPositions name, dotPositions_pairwise name, ?_⟩
  unfold specGuardedChain
  rw [List.map_append, List.map_map, List.map_singleton, concatAll_append_singleton,
    concatAll_eq_join]
  rfl

/-- C8, as stated, fails: for "a.b.c" the code does not produce
`a = {}; a.b = a.b || {}; a.b.c = a.b.c || {};`; and for a source of 32 MiB, which the
formatter refuses, the wrapped program is empty and does not end with the assignment of
the exports object. -/
theorem namespace_a_b_c_not_as_specified :
    CodeToEnsureNamespace "a.b.c" ≠
      "a = \x7b\x7d; a.b = a.b || \x7b\x7d; a.b.c = a.b.c || \x7b\x7d;" ∧
    WrapAPICode ⟨List.replicate (32 * 1024 * 1024) 'x'⟩ "a.b.c" = "" ∧
    ¬ ("a.b.c = exports; \x7d);".data <:+
      (WrapAPICode ⟨List.replicate (32 * 1024 * 1024) 'x'⟩ "a.b.c").data) := by
  rw [CodeToEnsureNamespace_a_b_c, WrapAPICode_oversized]
  decide

/-- C8, amended: for the extension name "a.b.c" the code produced by
`CodeToEnsureNamespace` is `a = a || {}; a.b = a.b || {}; a.b.c = {};` (the first two
segments guarded, the full name assigned a fresh object), and the wrapped program of every
source that fits the formatter ends with `a.b.c = exports; });`. -/
theorem wrap_a_b_c (code : String)
    (hfit : (WrapAPICode.expansion code "a.b.c").length < 32 * 1024 * 1024) :
    CodeToEnsureNamespace "a.b.c" =
      "a = a || \x7b\x7d; a.b = a.b || \x7b\x7d; a.b.c = \x7b\x7d;" ∧
    WrapAPICode code "a.b.c" =
      "var a = a || \x7b\x7d; a.b = a.b || \x7b\x7d; a.b.c = \x7b\x7d;" ++
        (WrapAPICode.middle ++ (c_str code ++ "\n\x7d)();a.b.c = exports; \x7d);")) ∧
    "a.b.c = exports; \x7d);".data <:+ (WrapAPICode code "a.b.c").data := by
  have hw : WrapAPICode code "a.b.c" =
      "var a = a || \x7b\x7d; a.b = a.b || \x7b\x7d; a.b.c = \x7b\x7d;" ++
        (WrapAPICode.middle ++ (c_str code ++ "\n\x7d)();a.b.c = exports; \x7d);")) := by
    rw [WrapAPICode_eq code "a.b.c" hfit, WrapAPICode.prologue, CodeToEnsureNamespace_a_b_c]
    apply String.ext
    simp only [String.data_append, List.append_assoc]
    rfl
  refine ⟨CodeToEnsureNamespace_a_b_c, hw, ?_⟩
  rw [hw]
  simp only [String.data_append]
  refine ⟨"var a = a || \x7b\x7d; a.b = a.b || \x7b\x7d; a.b.c = \x7b\x7d;".data ++
    (WrapAPICode.middle.data ++ ((c_str code).data ++ "\n\x7d)();".data)), ?_⟩
  simp only [List.append_assoc]
  rfl

/-- Instance of `wrap_a_b_c` for the source "f();". -/
theorem wrap_a_b_c_witness :
    (WrapAPICode.expansion "f();" "a.b.c").length < 32 * 1024 * 1024 ∧
    "a.b.c = exports; \x7d);".data <:+ (WrapAPICode "f();" "a.b.c").data :=
  ⟨by rw [expansion_eq, WrapAPICode.prologue, CodeToEnsureNamespace_a_b_c]; decide,
    (wrap_a_b_c "f();"
      (by rw [expansion_eq, WrapAPICode.prologue, CodeToEnsureNamespace_a_b_c]; decide)).2.2⟩

end extensions

namespace wrt

/-! ## The view wrapper -/

theorem since_append (self after : WebViewImpl) (l : List Effect)
    (h : after.effects = self.effects ++ l) : WebViewImpl.since self after = l := by
  simp [WebViewImpl.since, h]

theorem emit_effects (self : WebViewImpl) (e : Effect) :
    (self.emit e).effects = self.effects ++ [e] := rfl

theorem emit_listener (self : WebViewImpl) (e : Effect) :
    (self.emit e).listener_ = self.listener_ := rfl

/-- C11: the angle sent to the native widget for a window rotation of r degrees, on a
rotation event (`OnRotation`) and when `InitRotationCallback` sets the starting
orientation (alone or within `Initialize`), is `ToWebRotation r`, which is -90 for 90, 90
for 270 and r itself otherwise. -/
theorem rotation_sent_to_widget (self : WebViewImpl) (r : Int) (handler_id : Nat) :
    (self.OnRotation r).effects =
      self.effects ++ [Effect.ewk_view_orientation_send (ToWebRotation r)] ∧
    (WebViewImpl.InitRotationCallback { self with window_rotation := r } handler_id).effects =
      self.effects ++ [Effect.ewk_view_orientation_send (ToWebRotation r)] ∧
    (WebViewImpl.Initialize { self with window_rotation := r } handler_id).effects =
      self.effects ++
        [Effect.ewk_view_orientation_send (ToWebRotation r), Effect.evas_object_show] ∧
    ToWebRotation 90 = -90 ∧ ToWebRotation 270 = 90 ∧
    ToWebRotation r = (if r = 90 then -90 else if r = 270 then 90 else r) := by
  refine ⟨rfl, rfl, ?_, by decide, by decide, rfl⟩
  simp [WebViewImpl.Initialize, WebViewImpl.InitCertificateAllowCallback,
    WebViewImpl.InitAuthenticationCallback, WebViewImpl.InitGeolocationPermissionCallback,
    WebViewImpl.InitNotificationPermissionCallback, WebViewImpl.InitFullscreenCallback,
    WebViewImpl.InitWindowCreateCallback, WebViewImpl.InitRotationCallback,
    WebViewImpl.InitCustomContextMenuCallback, WebViewImpl.InitConsoleMessageCallback,
    WebViewImpl.InitOrientaionLockCallback, WebViewImpl.InitIPCMessageCallback,
    WebViewImpl.InitQuotaExceededCallback, WebViewImpl.InitPolicyDecideCallback,
    WebViewImpl.InitLoaderCallback, WebViewImpl.InitKeyCallback, WebViewImpl.emit]

/-- C12: on every navigation-decide event exactly one policy decision is applied; it is
`use` exactly when no listener is registered or the listener's `OnDidNavigation` verdict
is true, and `ignore` otherwise; with no listener nothing else happens. -/
theorem navigation_decide_verdict (self : WebViewImpl) (policy : Nat) (url : String) :
    (WebViewImpl.since self (navigation_decide_callback self policy url)).countP
      Effect.isDecision = 1 ∧
    (Effect.ewk_policy_decision_use policy ∈
        WebViewImpl.since self (navigation_decide_callback self policy url) ↔
      (self.listener_.isNone = true ∨ self.navigationAllowed url = true)) ∧
    (Effect.ewk_policy_decision_ignore policy ∈
        WebViewImpl.since self (navigation_decide_callback self policy url) ↔
      ¬ (self.listener_.isNone = true ∨ self.navigationAllowed url = true)) ∧
    (WebViewImpl.since self
        (navigation_decide_callback { self with listener_ := none } policy url) =
      [Effect.ewk_policy_decision_use policy]) := by
  refine ⟨?_, ?_, ?_, ?_⟩
  · cases hl : self.listener_ with
    | none =>
      rw [since_append self _ [Effect.ewk_policy_decision_use policy]
        (by simp [navigation_decide_callback, hl, WebViewImpl.emit])]
      rfl
    | some l =>
      cases hv : l.OnDidNavigation url with
      | true =>
        rw [since_append self _
          [Effect.OnDidNavigation url, Effect.ewk_policy_decision_use policy]
          (by simp [navigation_decide_callback, hl, hv, WebViewImpl.emit])]
        rfl
      | false =>
        rw [since_append self _
          [Effect.OnDidNavigation url, Effect.ewk_policy_decision_ignore policy]
          (by simp [navigation_decide_callback, hl, hv, WebViewImpl.emit])]
        rfl
  · cases hl : self.listener_ with
    | none =>
      rw [since_append self _ [Effect.ewk_policy_decision_use policy]
        (by simp [navigation_decide_callback, hl, WebViewImpl.emit])]
      simp
    | some l =>
      cases hv : l.OnDidNavigation url with
      | true =>
        rw [since_append self _
          [Effect.OnDidNavigation url, Effect.ewk_policy_decision_use policy]
          (by simp [navigation_decide_callback, hl, hv, WebViewImpl.emit])]
        simp [WebViewImpl.navigationAllowed, hl, hv]
      | false =>
        rw [since_append self _
          [Effect.OnDidNavigation url, Effect.ewk_policy_decision_ignore policy]
          (by simp [navigation_decide_callback, hl, hv, WebViewImpl.emit])]
        simp [WebViewImpl.navigationAllowed, hl, hv]
  · cases hl : self.listener_ with
    | none =>
      rw [since_append self _ [Effect.ewk_policy_decision_use policy]
        (by simp [navigation_decide_callback, hl, WebViewImpl.emit])]
      simp
    | some l =>
      cases hv : l.OnDidNavigation url with
      | true =>
        rw [since_append self _
          [Effect.OnDidNavigation url, Effect.ewk_policy_decision_use policy]
          (by simp [navigation_decide_callback, hl, hv, WebViewImpl.emit])]
        simp [WebViewImpl.navigationAllowed, hl, hv]
      | false =>
        rw [since_append self _
          [Effect.OnDidNavigation url, Effect.ewk_policy_decision_ignore policy]
          (by simp [navigation_decide_callback, hl, hv, WebViewImpl.emit])]
        simp [WebViewImpl.navigationAllowed, hl, hv]
  · exact since_append self _ _ (by simp [navigation_decide_callback, WebViewImpl.emit])

/-- C13, as stated, fails: with a listener whose `OnDidNavigation` refuses, the new-window
callback never calls `OnDidOpenWindow`; it calls `OnDidNavigation` and ignores. -/
theorem newwindow_second_method_skipped :
    WebViewImpl.since ((WebViewImpl.New 0 [] 1).SetEventListener (some refusingListener))
      (newwindow_decide_callback
        ((WebViewImpl.New 0 [] 1).SetEventListener (some refusingListener)) 7 "http://a/") =
      [Effect.OnDidNavigation "http://a/", Effect.ewk_policy_decision_ignore 7] ∧
    Effect.OnDidOpenWindow "http://a/" ∉
      WebViewImpl.since ((WebViewImpl.New 0 [] 1).SetEventListener (some refusingListener))
        (newwindow_decide_callback
          ((WebViewImpl.New 0 [] 1).SetEventListener (some refusingListener)) 7 "http://a/") := by
  decide

/-- C13, amended: on every new-window-decide event with a listener registered,
`OnDidNavigation` is called first, `OnDidOpenWindow` is called exactly when
`OnDidNavigation` approved, and then one policy decision is applied: `use` exactly when
both approved, `ignore` otherwise. -/
theorem newwindow_decide_verdict (self : WebViewImpl) (listener : EventListener)
    (policy : Nat) (url : String) (hl : self.listener_ = some listener) :
    WebViewImpl.since self (newwindow_decide_callback self policy url) =
      [Effect.OnDidNavigation url] ++
      (if listener.OnDidNavigation url = true then [Effect.OnDidOpenWindow url] else []) ++
      [if listener.OnDidNavigation url = true ∧ listener.OnDidOpenWindow url = true then
        Effect.ewk_policy_decision_use policy
      else Effect.ewk_policy_decision_ignore policy] ∧
    (Effect.ewk_policy_decision_use policy ∈
        WebViewImpl.since self (newwindow_decide_callback self policy url) ↔
      (listener.OnDidNavigation url = true ∧ listener.OnDidOpenWindow url = true)) ∧
    (Effect.ewk_policy_decision_ignore policy ∈
        WebViewImpl.since self (newwindow_decide_callback self policy url) ↔
      ¬ (listener.OnDidNavigation url = true ∧ listener.OnDidOpenWindow url = true)) ∧
    (Effect.OnDidOpenWindow url ∈
        WebViewImpl.since self (newwindow_decide_callback self policy url) ↔
      listener.OnDidNavigation url = true) := by
  cases hn : listener.OnDidNavigation url with
  | false =>
    rw [since_append self _
      [Effect.OnDidNavigation url, Effect.ewk_policy_decision_ignore policy]
      (by simp [newwindow_decide_callback, hl, hn, WebViewImpl.emit])]
    simp
  | true =>
    cases ho : listener.OnDidOpenWindow url with
    | false =>
      rw [since_append self _
        [Effect.OnDidNavigation url, Effect.OnDidOpenWindow url,
          Effect.ewk_policy_decision_ignore policy]
        (by simp [newwindow_decide_callback, hl, hn, ho, WebViewImpl.emit])]
      simp
    | true =>
      rw [since_append self _
        [Effect.OnDidNavigation url, Effect.OnDidOpenWindow url,
          Effect.ewk_policy_decision_use policy]
        (by simp [newwindow_decide_callback, hl, hn, ho, WebViewImpl.emit])]
      simp

/-- Instance of `newwindow_decide_verdict`: the permissive listener approves twice and the
decision is `use`. -/
theorem newwindow_decide_verdict_witness :
    ((WebViewImpl.New 0 [] 1).SetEventListener (some permissiveListener)).listener_ =
      some permissiveListener ∧
    Effect.ewk_policy_decision_use 7 ∈
      WebViewImpl.since ((WebViewImpl.New 0 [] 1).SetEventListener (some permissiveListener))
        (newwindow_decide_callback
          ((WebViewImpl.New 0 [] 1).SetEventListener (some permissiveListener)) 7 "http://a/") :=
  ⟨rfl,
    (newwindow_decide_verdict
      ((WebViewImpl.New 0 [] 1).SetEventListener (some permissiveListener))
      permissiveListener 7 "http://a/" rfl).2.1.mpr ⟨rfl, rfl⟩⟩

/-- C14 on the code: a menu that starts with "open link in new window", customized with a
listener that leaves the menu enabled, keeps that first item: the loop stops before index
0, so a denylisted item remains. -/
theorem context_menu_keeps_denylisted_first_item :
    (custom_context_menu_callback
      ((WebViewImpl.New 0 [] 1).SetEventListener (some permissiveListener))
      [Ewk_Context_Menu_Item_Tag.EWK_CONTEXT_MENU_ITEM_TAG_OPEN_LINK_IN_NEW_WINDOW,
        Ewk_Context_Menu_Item_Tag.other 1,
        Ewk_Context_Menu_Item_Tag.EWK_CONTEXT_MENU_ITEM_TAG_SEARCH_WEB]).1 =
      [Ewk_Context_Menu_Item_Tag.EWK_CONTEXT_MENU_ITEM_TAG_OPEN_LINK_IN_NEW_WINDOW,
        Ewk_Context_Menu_Item_Tag.other 1] ∧
    Ewk_Context_Menu_Item_Tag.denylisted
      Ewk_Context_Menu_Item_Tag.EWK_CONTEXT_MENU_ITEM_TAG_OPEN_LINK_IN_NEW_WINDOW = true ∧
    (custom_context_menu_callback
      ((WebViewImpl.New 0 [] 1).SetEventListener (some refusingListener))
      [Ewk_Context_Menu_Item_Tag.EWK_CONTEXT_MENU_ITEM_TAG_OPEN_LINK_IN_NEW_WINDOW,
        Ewk_Context_Menu_Item_Tag.other 1,
        Ewk_Context_Menu_Item_Tag.EWK_CONTEXT_MENU_ITEM_TAG_SEARCH_WEB]).1 =
      [Ewk_Context_Menu_Item_Tag.EWK_CONTEXT_MENU_ITEM_TAG_OPEN_LINK_IN_NEW_WINDOW] := by
  decide

/-- C15: for each of the four permission requests (notification, geolocation,
authentication, certificate): with no listener the request is denied at once and not
suspended (reply `false`, reply `false`, credential cancel, allowed set to `false`); with
a listener the request is suspended, the listener's request method is called once with a
result callback bound to that request, and the wrapper itself replies nothing. -/
theorem permission_requests_deny_or_suspend (self : WebViewImpl) (listener : EventListener)
    (request : Nat) (origin : Ewk_Security_Origin) (message url : String)
    (curl pem : Option String) :
    (WebViewImpl.since self
        (request_callback { self with listener_ := none } request origin).2 =
      [Effect.LOGGER_DEBUG "Notification Permission Request",
        Effect.ewk_notification_permission_reply request false]) ∧
    (WebViewImpl.since self
        (request_callback { self with listener_ := some listener } request origin).2 =
      [Effect.LOGGER_DEBUG "Notification Permission Request",
        Effect.ewk_notification_permission_request_suspend request,
        Effect.OnNotificationPermissionRequest (originUrl origin)
          (ResultHandler.notification request)]) ∧
    (WebViewImpl.since self
        (permission_callback { self with listener_ := none } request origin).2 =
      [Effect.LOGGER_DEBUG "Geolocation Permission Request",
        Effect.ewk_geolocation_permission_reply request false]) ∧
    (WebViewImpl.since self
        (permission_callback { self with listener_ := some listener } request origin).2 =
      [Effect.LOGGER_DEBUG "Geolocation Permission Request",
        Effect.ewk_geolocation_permission_request_suspend request,
        Effect.OnGeolocationPermissionRequest (originUrl origin)
          (ResultHandler.geolocation request)]) ∧
    (WebViewImpl.since self
        (auth_callback { self with listener_ := none } request message url) =
      [Effect.LOGGER_DEBUG "Authentication Request",
        Effect.ewk_auth_challenge_credential_cancel request]) ∧
    (WebViewImpl.since self
        (auth_callback { self with listener_ := some listener } request message url) =
      [Effect.LOGGER_DEBUG "Authentication Request",
        Effect.ewk_auth_challenge_suspend request,
        Effect.OnAuthenticationRequest url message
          (AuthResultHandler.authentication request)]) ∧
    (WebViewImpl.since self
        (certi_callback { self with listener_ := none } request curl pem) =
      [Effect.ewk_certificate_policy_decision_allowed_set request false]) ∧
    (WebViewImpl.since self
        (certi_callback { self with listener_ := some listener } request curl pem) =
      [Effect.ewk_certificate_policy_decision_suspend request,
        Effect.OnCertificateAllowRequest (curl.getD "") (pem.getD "")
          (ResultHandler.certificate request)]) := by
  refine ⟨?_, ?_, ?_, ?_, ?_, ?_, ?_, ?_⟩ <;>
    exact since_append self _ _
      (by simp [request_callback, permission_callback, auth_callback, certi_callback,
        WebViewImpl.emit])

/-- C16, as stated, fails: the result callback of a suspended notification request,
invoked twice, replies to the native request twice. -/
theorem result_handler_replies_twice :
    (ResultHandler.notification 3).call true ++ (ResultHandler.notification 3).call false =
      [Effect.LOGGER_DEBUG "Notification Permission Result : %d1",
        Effect.ewk_notification_permission_reply 3 true,
        Effect.LOGGER_DEBUG "Notification Permission Result : %d0",
        Effect.ewk_notification_permission_reply 3 false] ∧
    ((ResultHandler.notification 3).call true ++
      (ResultHandler.notification 3).call false).countP Effect.isReply = 2 := by
  decide

/-- C16, amended: the result callbacks are not single-use. Every invocation of a result
callback (the three quota handlers, notification, geolocation, certificate,
authentication) applies exactly one native reply, on the request it captured and with the
decision it was given (for authentication: a cancel when `submit` is false, the
credentials otherwise), so two invocations apply two replies. -/
theorem result_handler_replies_every_time (h : ResultHandler) (a : AuthResultHandler)
    (n : Nat) (r r1 r2 : Bool) (id pw id1 pw1 id2 pw2 : String) :
    (ResultHandler.database_quota n).call r =
      [Effect.LOGGER_DEBUG ("database quota Permission Result : " ++ (if r then "1" else "0")),
        Effect.ewk_view_exceeded_database_quota_reply n r] ∧
    (ResultHandler.indexed_db_quota n).call r =
      [Effect.LOGGER_DEBUG ("indexed db quota Permission Result : " ++ (if r then "1" else "0")),
        Effect.ewk_view_exceeded_indexed_database_quota_reply n r] ∧
    (ResultHandler.local_file_quota n).call r =
      [Effect.LOGGER_DEBUG ("local file quota Permission Result : " ++ (if r then "1" else "0")),
        Effect.ewk_view_exceeded_local_file_system_quota_reply n r] ∧
    (ResultHandler.notification n).call r =
      [Effect.LOGGER_DEBUG ("Notification Permission Result : %d" ++ (if r then "1" else "0")),
        Effect.ewk_notification_permission_reply n r] ∧
    (ResultHandler.geolocation n).call r =
      [Effect.LOGGER_DEBUG ("Geolocation Permission Result : " ++ (if r then "1" else "0")),
        Effect.ewk_geolocation_permission_reply n r] ∧
    (ResultHandler.certificate n).call r =
      [Effect.ewk_certificate_policy_decision_allowed_set n r] ∧
    (AuthResultHandler.authentication n).call r id pw =
      [Effect.LOGGER_DEBUG ("Authentication Result : submit = " ++ (if r then "1" else "0")),
        if r then Effect.ewk_auth_challenge_credential_use n id pw
        else Effect.ewk_auth_challenge_credential_cancel n] ∧
    (h.call r1).countP Effect.isReply = 1 ∧
    (h.call r1 ++ h.call r2).countP Effect.isReply = 2 ∧
    (a.call r1 id1 pw1).countP Effect.isReply = 1 ∧
    (a.call r1 id1 pw1 ++ a.call r2 id2 pw2).countP Effect.isReply = 2 := by
  have h1 : ∀ r, (h.call r).countP Effect.isReply = 1 := by
    intro r
    cases h <;> rfl
  have h2 : ∀ r i p, (a.call r i p).countP Effect.isReply = 1 := by
    intro r i p
    cases a
    cases r <;> rfl
  refine ⟨rfl, rfl, rfl, rfl, rfl, rfl, ?_, h1 r1, ?_, h2 r1 id1 pw1, ?_⟩
  · cases r <;> rfl
  · rw [List.countP_append, h1, h1]
  · rw [List.countP_append, h2, h2]

/-- C17: the decision table of `OnKeyEvent`. Back key: fullscreen set, a fullscreen exit
and nothing else; otherwise the text selection is cleared and, only if that fails, the
listener (if any) receives "back". Menu key: the listener (if any) receives "menu",
whatever the fullscreen flag and the selection. Any other key: nothing. -/
theorem OnKeyEvent_table (self : WebViewImpl) (listener : EventListener)
    (selection_cleared : Bool) (code : Nat) :
    (WebViewImpl.since self
        (WebViewImpl.OnKeyEvent { self with fullscreen_ := true }
          Ea_Callback_Type.EA_CALLBACK_BACK selection_cleared) =
      [Effect.ewk_view_fullscreen_exit]) ∧
    (WebViewImpl.since self
        (WebViewImpl.OnKeyEvent { self with fullscreen_ := false }
          Ea_Callback_Type.EA_CALLBACK_BACK true) =
      [Effect.ewk_view_text_selection_clear]) ∧
    (WebViewImpl.since self
        (WebViewImpl.OnKeyEvent { self with fullscreen_ := false, listener_ := some listener }
          Ea_Callback_Type.EA_CALLBACK_BACK false) =
      [Effect.ewk_view_text_selection_clear, Effect.OnHardwareKey "back"]) ∧
    (WebViewImpl.since self
        (WebViewImpl.OnKeyEvent { self with fullscreen_ := false, listener_ := none }
          Ea_Callback_Type.EA_CALLBACK_BACK false) =
      [Effect.ewk_view_text_selection_clear]) ∧
    (WebViewImpl.since self
        (WebViewImpl.OnKeyEvent { self with listener_ := some listener }
          Ea_Callback_Type.EA_CALLBACK_MORE selection_cleared) =
      [Effect.OnHardwareKey "menu"]) ∧
    (WebViewImpl.since self
        (WebViewImpl.OnKeyEvent { self with listener_ := none }
          Ea_Callback_Type.EA_CALLBACK_MORE selection_cleared) = []) ∧
    (WebViewImpl.since self
        (WebViewImpl.OnKeyEvent self (Ea_Callback_Type.other code) selection_cleared) = []) ∧
    (WebViewImpl.OnKeyEvent self Ea_Callback_Type.EA_CALLBACK_BACK selection_cleared).fullscreen_ =
      self.fullscreen_ := by
  refine ⟨?_, ?_, ?_, ?_, ?_, ?_, ?_, ?_⟩
  · exact since_append self _ _ (by simp [WebViewImpl.OnKeyEvent, WebViewImpl.emit])
  · exact since_append self _ _ (by simp [WebViewImpl.OnKeyEvent, WebViewImpl.emit])
  · exact since_append self _ _
      (by simp [WebViewImpl.OnKeyEvent, WebViewImpl.emit, kKeyNameBack])
  · exact since_append self _ _ (by simp [WebViewImpl.OnKeyEvent, WebViewImpl.emit])
  · exact since_append self _ _
      (by simp [WebViewImpl.OnKeyEvent, WebViewImpl.emit, kKeyNameMenu])
  · exact since_append self _ _ (by simp [WebViewImpl.OnKeyEvent])
  · exact since_append self _ _ (by simp [WebViewImpl.OnKeyEvent])
  · cases hf : self.fullscreen_ <;> cases hl : self.listener_ <;> cases selection_cleared <;>
      simp [WebViewImpl.OnKeyEvent, WebViewImpl.emit, hf, hl]

theorem New_registrations (r : Int) (handlers : List Nat) (id : Nat) :
    (WebViewImpl.New r handlers id).ewk_view_ = (WebViewImpl.New 0 [] 0).ewk_view_ ∧
    (WebViewImpl.New r handlers id).smart_callbacks_ =
      (WebViewImpl.New 0 [] 0).smart_callbacks_ ∧
    ( WebViewImpl.Deinitialize (WebViewImpl.New r handlers id)).ewk_view_ =
      ( WebViewImpl.Deinitialize (WebViewImpl.New 0 [] 0)).ewk_view_ :=
  ⟨rfl, rfl, rfl⟩

/-- C18 on the code: after `Initialize` followed by `Deinitialize` the widget still holds
the key callback registered for `EA_CALLBACK_MORE` (only the one for `EA_CALLBACK_BACK` is
deleted), every other registration being gone; and the map iterated by `Deinitialize`
holds the entry "key_callback", which `Initialize` never registered as a smart callback. -/
theorem deinitialize_leaves_more_key_callback (r : Int) (id : Nat) :
    ( WebViewImpl.Deinitialize (WebViewImpl.New r [] id)).ewk_view_ =
      { Widget.empty with
        ea_callbacks := [(Ea_Callback_Type.EA_CALLBACK_MORE, Callback.key_callback)] } ∧
    (WebViewImpl.New r [] id).ewk_view_.ea_callbacks =
      [(Ea_Callback_Type.EA_CALLBACK_BACK, Callback.key_callback),
        (Ea_Callback_Type.EA_CALLBACK_MORE, Callback.key_callback)] ∧
    ("key_callback", Callback.key_callback) ∈ (WebViewImpl.New r [] id).smart_callbacks_ ∧
    ("key_callback", Callback.key_callback) ∉
      (WebViewImpl.New r [] id).ewk_view_.smart_callbacks ∧
    (WebViewImpl.New r [] id).window_rotation_handlers = [id] ∧
    ( WebViewImpl.Deinitialize (WebViewImpl.New r [] id)).window_rotation_handlers = [] := by
  obtain ⟨h1, h2, h3⟩ := New_registrations r [] id
  rw [h1, h2, h3]
  refine ⟨by decide, by decide, by decide, by decide, rfl, ?_⟩
  show ([] ++ [id]).erase id = []
  simp

/-- C19: the origin string handed to the listener by the three quota callbacks and by the
notification and geolocation callbacks is the protocol, "://", the host, ":" and the
decimal text of the port, protocol and host being copied as they are; for an empty
protocol and an empty host and port 80 it is "://:80". -/
theorem origin_string_format (self : WebViewImpl) (listener : EventListener)
    (n : Nat) (origin : Ewk_Security_Origin) :
    (WebViewImpl.since self
        (database_exceeded_callback { self with listener_ := some listener } n origin).2 =
      [Effect.OnQuotaExceed
        (origin.protocol ++ "://" ++ origin.host ++ ":" ++ Nat.repr origin.port)
        (ResultHandler.database_quota n)]) ∧
    (WebViewImpl.since self
        (indexed_db_exceeded_callback { self with listener_ := some listener } n origin).2 =
      [Effect.OnQuotaExceed
        (origin.protocol ++ "://" ++ origin.host ++ ":" ++ Nat.repr origin.port)
        (ResultHandler.indexed_db_quota n)]) ∧
    (WebViewImpl.since self
        (localfile_exceeded_callback { self with listener_ := some listener } n origin).2 =
      [Effect.OnQuotaExceed
        (origin.protocol ++ "://" ++ origin.host ++ ":" ++ Nat.repr origin.port)
        (ResultHandler.local_file_quota n)]) ∧
    (Effect.OnNotificationPermissionRequest
        (origin.protocol ++ "://" ++ origin.host ++ ":" ++ Nat.repr origin.port)
        (ResultHandler.notification n) ∈
      WebViewImpl.since self
        (request_callback { self with listener_ := some listener } n origin).2) ∧
    (Effect.OnGeolocationPermissionRequest
        (origin.protocol ++ "://" ++ origin.host ++ ":" ++ Nat.repr origin.port)
        (ResultHandler.geolocation n) ∈
      WebViewImpl.since self
        (permission_callback { self with listener_ := some listener } n origin).2) ∧
    originUrl { protocol := "", host := "", port := 80 } = "://:80" := by
  have hurl : originUrl origin =
      origin.protocol ++ "://" ++ origin.host ++ ":" ++ Nat.repr origin.port := by
    apply String.ext
    simp [originUrl, String.data_append]
  refine ⟨?_, ?_, ?_, ?_, ?_, by decide⟩
  · rw [← hurl]
    exact since_append self _ _ (by simp [database_exceeded_callback, WebViewImpl.emit])
  · rw [← hurl]
    exact since_append self _ _ (by simp [indexed_db_exceeded_callback, WebViewImpl.emit])
  · rw [← hurl]
    exact since_append self _ _ (by simp [localfile_exceeded_callback, WebViewImpl.emit])
  · rw [← hurl, since_append self _
      [Effect.LOGGER_DEBUG "Notification Permission Request",
        Effect.ewk_notification_permission_request_suspend n,
        Effect.OnNotificationPermissionRequest (originUrl origin)
          (ResultHandler.notification n)]
      (by simp [request_callback, WebViewImpl.emit])]
    simp
  · rw [← hurl, since_append self _
      [Effect.LOGGER_DEBUG "Geolocation Permission Request",
        Effect.ewk_geolocation_permission_request_suspend n,
        Effect.OnGeolocationPermissionRequest (originUrl origin)
          (ResultHandler.geolocation n)]
      (by simp [permission_callback, WebViewImpl.emit])]
    simp

end wrt

namespace extensions

/-! ## Loading and teardown -/

theorem EntryCall_run_instance_id (host : Host) (w : World) (c : EntryCall) :
    (c.run host w).module.instance_id_ = w.module.instance_id_ := by
  cases halive : w.alive with
  | true =>
    have ha := GetExtensionModule_alive w halive
    cases c <;>
      simp only [EntryCall.run, PostMessageCallback, SendSyncMessageCallback,
        SetMessageListenerCallback, SendRuntimeMessageCallback,
        SendRuntimeSyncMessageCallback, SendRuntimeAsyncMessageCallback, ha] <;>
      (repeat' split) <;> rfl
  | false =>
    have hd := GetExtensionModule_dead w halive
    cases c <;>
      simp only [EntryCall.run, PostMessageCallback, SendSyncMessageCallback,
        SetMessageListenerCallback, SendRuntimeMessageCallback,
        SendRuntimeSyncMessageCallback, SendRuntimeAsyncMessageCallback, hd]

theorem runScript_instance_id (host : Host) (script : List EntryCall) (w : World) :
    (runScript host w script).module.instance_id_ = w.module.instance_id_ := by
  induction script generalizing w with
  | nil => rfl
  | cons c rest ih =>
    show (runScript host (c.run host w) rest).module.instance_id_ = _
    rw [ih, EntryCall_run_instance_id]

theorem LoadExtensionCode_instance_id (host : Host) (ld : Loader) (w : World) :
    (LoadExtensionCode host ld w).module.instance_id_ =
      ld.CreateInstance w.calls w.module.extension_name_ := by
  unfold LoadExtensionCode
  simp only
  split
  · rfl
  · split
    · rfl
    · split
      · rfl
      · split <;> simp [runScript_instance_id]

theorem Destructor_calls (w : World) :
    (XWalkExtensionModule.Destructor w).calls =
      w.calls ++ (if w.module.instance_id_ = "" then []
        else [Call.DestroyInstance w.module.instance_id_]) := by
  by_cases h : w.module.instance_id_ = "" <;> simp [XWalkExtensionModule.Destructor, h]

/-- C20: the destructor clears the message listener and calls `DestroyInstance` once,
with the stored instance id, exactly when that id is not empty. A module that never ran
`LoadExtensionCode` destroys nothing; after `LoadExtensionCode` the stored id is the one
`CreateInstance` returned, whatever happened afterwards, so the instance is destroyed
exactly when that id is not empty, also when the load stopped because the extension was
not found. -/
theorem teardown_destroys_created_instance (host : Host) (ld : Loader) (w : World)
    (module_system : Nat) (extension_name : String) :
    (XWalkExtensionModule.Destructor w).module.message_listener_ = none ∧
    (XWalkExtensionModule.Destructor w).calls =
      w.calls ++ (if w.module.instance_id_ = "" then []
        else [Call.DestroyInstance w.module.instance_id_]) ∧
    (XWalkExtensionModule.Destructor
      (XWalkExtensionModule.New module_system extension_name)).calls = [] ∧
    (XWalkExtensionModule.Destructor (LoadExtensionCode host ld w)).calls =
      (LoadExtensionCode host ld w).calls ++
        (if ld.CreateInstance w.calls w.module.extension_name_ = "" then []
          else [Call.DestroyInstance (ld.CreateInstance w.calls w.module.extension_name_)]) ∧
    (XWalkExtensionModule.Destructor
      (LoadExtensionCode host { ld with GetExtension := fun _ => none } w)).calls =
      w.calls ++ [Call.CreateInstance w.module.extension_name_] ++
        (if ld.CreateInstance w.calls w.module.extension_name_ = "" then []
          else [Call.DestroyInstance (ld.CreateInstance w.calls w.module.extension_name_)]) ∧
    (XWalkExtensionModule.Destructor
      (LoadExtensionCode echoHost lostExtensionLoader
        (XWalkExtensionModule.New 1 "echo"))).calls =
      [Call.CreateInstance "echo", Call.DestroyInstance "1"] := by
  refine ⟨rfl, Destructor_calls w, rfl, ?_, ?_, by decide⟩
  · rw [Destructor_calls, LoadExtensionCode_instance_id]
  · rw [Destructor_calls, LoadExtensionCode_instance_id]
    have hc : (LoadExtensionCode host { ld with GetExtension := fun _ => none } w).calls =
        w.calls ++ [Call.CreateInstance w.module.extension_name_] := by
      unfold LoadExtensionCode
      simp only
      split <;> rfl
    rw [hc]

end extensions

namespace wrt

/-! ## The scan of the context menu -/

theorem removesItem_eq (disabled : Bool) (t : Ewk_Context_Menu_Item_Tag) :
    removesItem disabled t = (disabled || t.denylisted) := by
  cases disabled <;> cases t <;>
    simp [removesItem, Ewk_Context_Menu_Item_Tag.denylisted, denylist]

theorem examine_eq (disabled : Bool) (item : Nat × Ewk_Context_Menu_Item_Tag) :
    examine disabled item =
      Effect.ewk_context_menu_nth_item_get item.1 ::
        (if removesItem disabled item.2 = true then
          [Effect.ewk_context_menu_item_remove item.1]
        else []) := by
  unfold examine
  rw [removesItem_eq]
  cases disabled <;> cases item.2.denylisted <;> simp

theorem body_at_end (disabled : Bool) (A suf : List Ewk_Context_Menu_Item_Tag)
    (t : Ewk_Context_Menu_Item_Tag) (e : List Effect) :
    custom_context_menu_callback.body disabled A.length (A ++ t :: suf, e) =
      (A ++ (if removesItem disabled t then suf else t :: suf),
        e ++ examine disabled (A.length, t)) := by
  have hget : (A ++ t :: suf)[A.length]? = some t := by
    rw [List.getElem?_append_right (Nat.le_refl _)]
    simp
  have herase : (A ++ t :: suf).eraseIdx A.length = A ++ suf := by
    rw [List.eraseIdx_append_of_length_le (Nat.le_refl _)]
    simp
  unfold custom_context_menu_callback.body
  simp only [hget, herase]
  cases hr : removesItem disabled t <;> simp [examine_eq, hr]

theorem loop_scan (disabled : Bool) (first : Ewk_Context_Menu_Item_Tag) (n : Nat) :
    ∀ (mid suf : List Ewk_Context_Menu_Item_Tag) (e : List Effect), mid.length = n →
      custom_context_menu_callback.loop disabled n (first :: mid ++ suf, e) =
        (first :: mid.filter (fun t => !removesItem disabled t) ++ suf,
          e ++ (mid.enumFrom 1).reverse.flatMap (examine disabled)) := by
  induction n with
  | zero =>
    intro mid suf e h
    have : mid = [] := List.length_eq_zero.mp h
    subst this
    simp [custom_context_menu_callback.loop]
  | succ n ih =>
    intro mid suf e h
    rcases List.eq_nil_or_concat mid with hnil | ⟨mid', t, hmid⟩
    · subst hnil
      simp at h
    · rw [List.concat_eq_append] at hmid
      subst hmid
      have hlen : mid'.length = n := by simpa using h
      have hA : (first :: mid').length = n + 1 := by simp [hlen]
      rw [custom_context_menu_callback.loop]
      have hshape : first :: (mid' ++ [t]) ++ suf = (first :: mid') ++ t :: suf := by simp
      rw [hshape, ← hA, body_at_end]
      have hnext : (first :: mid') ++ (if removesItem disabled t = true then suf else t :: suf) =
          first :: mid' ++ (if removesItem disabled t = true then suf else t :: suf) := rfl
      rw [hnext, ih mid' _ _ hlen]
      have henum : ((mid' ++ [t]).enumFrom 1).reverse =
          (1 + mid'.length, t) :: (mid'.enumFrom 1).reverse := by
        rw [List.enumFrom_append]
        simp
      rw [henum, List.flatMap_cons]
      have hidx : (first :: mid').length = 1 + mid'.length := by simp [Nat.add_comm]
      rw [hidx]
      cases hr : removesItem disabled t <;> simp [hr, List.filter_append]

theorem nthIndex_flatMap_examine (disabled : Bool)
    (l : List (Nat × Ewk_Context_Menu_Item_Tag)) :
    (l.flatMap (examine disabled)).filterMap Effect.nthIndex = l.map Prod.fst := by
  induction l with
  | nil => rfl
  | cons x rest ih =>
    rw [List.flatMap_cons, List.filterMap_append, ih]
    cases hr : removesItem disabled x.2 <;> simp [examine_eq, hr, Effect.nthIndex]

theorem removesItem_true (t : Ewk_Context_Menu_Item_Tag) : removesItem true t = true := by
  cases t <;> rfl

theorem unsigned_of_count (n : Nat) (h : n + 1 ≤ 2147483647) :
    unsigned_of_int (((n + 1 : Nat) : Int) - 1) = n := by
  unfold unsigned_of_int
  omega

theorem customize_eq (self : WebViewImpl) (contextmenu : List Ewk_Context_Menu_Item_Tag) :
    custom_context_menu_callback self contextmenu =
      ((custom_context_menu_callback.loop self.menuDisabled
          (unsigned_of_int ((contextmenu.length : Int) - 1))
          (contextmenu, self.effects ++ self.menuAsked)).1,
        { self with
          effects := (custom_context_menu_callback.loop self.menuDisabled
            (unsigned_of_int ((contextmenu.length : Int) - 1))
            (contextmenu, self.effects ++ self.menuAsked)).2 }) := by
  unfold custom_context_menu_callback WebViewImpl.menuDisabled WebViewImpl.menuAsked
  cases self.listener_ <;> rfl

/-- C21: for every context menu with at least one item (and a count that fits an `int`),
the menu left by the customize callback is the original first item, whatever its kind and
whatever the listener says, followed in the original order by the items of index 1 and
more that are not of a denylisted kind when the listener does not disable the menu, and
by nothing when it does. The scan examines every item of index 1 and more exactly once,
at its original index, from the last down to index 1, and removes it exactly when the
menu is disabled or the item is of a denylisted kind. The last conjuncts spell out the
words used: the five denylisted kinds, the listener's verdict, the question put to the
listener, the effects of one examination, and the index of an access. -/
theorem context_menu_after_customize (self : WebViewImpl)
    (first : Ewk_Context_Menu_Item_Tag) (rest : List Ewk_Context_Menu_Item_Tag)
    (hcnt : (first :: rest).length ≤ 2147483647) :
    (custom_context_menu_callback self (first :: rest)).1 =
      (if self.menuDisabled = true then [first]
        else first :: rest.filter (fun t => !t.denylisted)) ∧
    WebViewImpl.since self (custom_context_menu_callback self (first :: rest)).2 =
      self.menuAsked ++ (rest.enumFrom 1).reverse.flatMap (examine self.menuDisabled) ∧
    (WebViewImpl.since self
        (custom_context_menu_callback self (first :: rest)).2).filterMap Effect.nthIndex =
      (List.range' 1 rest.length).reverse ∧
    (∀ t : Ewk_Context_Menu_Item_Tag, t.denylisted = true ↔
      (t = Ewk_Context_Menu_Item_Tag.EWK_CONTEXT_MENU_ITEM_TAG_OPEN_IMAGE_IN_NEW_WINDOW ∨
        t = Ewk_Context_Menu_Item_Tag.EWK_CONTEXT_MENU_ITEM_TAG_OPEN_LINK_IN_NEW_WINDOW ∨
        t = Ewk_Context_Menu_Item_Tag.EWK_CONTEXT_MENU_ITEM_TAG_OPEN_FRAME_IN_NEW_WINDOW ∨
        t = Ewk_Context_Menu_Item_Tag.EWK_CONTEXT_MENU_ITEM_TAG_SEARCH_WEB ∨
        t = Ewk_Context_Menu_Item_Tag.EWK_CONTEXT_MENU_ITEM_TAG_DOWNLOAD_IMAGE_TO_DISK)) ∧
    self.menuDisabled =
      (match self.listener_ with
      | some listener => listener.OnContextMenuDisabled
      | none => false) ∧
    self.menuAsked =
      (match self.listener_ with
      | some _ => [Effect.OnContextMenuDisabled]
      | none => []) ∧
    (∀ (disabled : Bool) (idx : Nat) (t : Ewk_Context_Menu_Item_Tag),
      examine disabled (idx, t) =
        Effect.ewk_context_menu_nth_item_get idx ::
          (if disabled = true ∨ t.denylisted = true then
            [Effect.ewk_context_menu_item_remove idx]
          else [])) ∧
    (∀ (e : Effect) (idx : Nat),
      Effect.nthIndex e = some idx ↔ e = Effect.ewk_context_menu_nth_item_get idx) := by
  have hidx : unsigned_of_int ((((first :: rest).length : Nat) : Int) - 1) = rest.length :=
    unsigned_of_count rest.length hcnt
  have hloop := loop_scan self.menuDisabled first rest.length rest []
    (self.effects ++ self.menuAsked) rfl
  simp only [List.append_nil] at hloop
  have hsince : WebViewImpl.since self (custom_context_menu_callback self (first :: rest)).2 =
      self.menuAsked ++ (rest.enumFrom 1).reverse.flatMap (examine self.menuDisabled) := by
    rw [customize_eq, hidx, hloop]
    simp [WebViewImpl.since]
  refine ⟨?_, hsince, ?_, ?_, rfl, rfl, fun _ _ _ => rfl, ?_⟩
  · rw [customize_eq, hidx, hloop]
    cases hd : self.menuDisabled with
    | true =>
      have : rest.filter (fun t => !removesItem true t) = [] := by
        rw [List.filter_eq_nil_iff]
        intro t _
        simp [removesItem_true]
      simp [this]
    | false => simp [removesItem_eq]
  · rw [hsince, List.filterMap_append, nthIndex_flatMap_examine]
    have hask : self.menuAsked.filterMap Effect.nthIndex = [] := by
      unfold WebViewImpl.menuAsked
      cases self.listener_ <;> rfl
    rw [hask, List.nil_append, List.map_reverse, List.enumFrom_map_fst]
  · intro t
    simp [Ewk_Context_Menu_Item_Tag.denylisted, denylist]
  · intro e idx
    cases e <;> simp [Effect.nthIndex]

/-- Instance of `context_menu_after_customize`: a menu of four items whose first and third
are denylisted, with a listener that leaves the menu enabled; the first item stays, the
third goes. -/
theorem context_menu_after_customize_witness :
    ([Ewk_Context_Menu_Item_Tag.EWK_CONTEXT_MENU_ITEM_TAG_OPEN_LINK_IN_NEW_WINDOW,
        Ewk_Context_Menu_Item_Tag.other 1,
        Ewk_Context_Menu_Item_Tag.EWK_CONTEXT_MENU_ITEM_TAG_SEARCH_WEB,
        Ewk_Context_Menu_Item_Tag.other 2].length ≤ 2147483647) ∧
    (custom_context_menu_callback
        ((WebViewImpl.New 0 [] 1).SetEventListener (some permissiveListener))
        [Ewk_Context_Menu_Item_Tag.EWK_CONTEXT_MENU_ITEM_TAG_OPEN_LINK_IN_NEW_WINDOW,
          Ewk_Context_Menu_Item_Tag.other 1,
          Ewk_Context_Menu_Item_Tag.EWK_CONTEXT_MENU_ITEM_TAG_SEARCH_WEB,
          Ewk_Context_Menu_Item_Tag.other 2]).1 =
      [Ewk_Context_Menu_Item_Tag.EWK_CONTEXT_MENU_ITEM_TAG_OPEN_LINK_IN_NEW_WINDOW,
        Ewk_Context_Menu_Item_Tag.other 1,
        Ewk_Context_Menu_Item_Tag.other 2] :=
  ⟨by decide,
    (context_menu_after_customize
      ((WebViewImpl.New 0 [] 1).SetEventListener (some permissiveListener))
      Ewk_Context_Menu_Item_Tag.EWK_CONTEXT_MENU_ITEM_TAG_OPEN_LINK_IN_NEW_WINDOW
      [Ewk_Context_Menu_Item_Tag.other 1,
        Ewk_Context_Menu_Item_Tag.EWK_CONTEXT_MENU_ITEM_TAG_SEARCH_WEB,
        Ewk_Context_Menu_Item_Tag.other 2] (by decide)).1.trans (by decide)⟩

theorem loop_empty_menu (disabled : Bool) (n : Nat) : ∀ (e : List Effect),
    custom_context_menu_callback.loop disabled n ([], e) =
      ([], e ++ (List.range' 1 n).reverse.map Effect.ewk_context_menu_nth_item_get) := by
  induction n with
  | zero =>
    intro e
    simp [custom_context_menu_callback.loop]
  | succ n ih =>
    intro e
    rw [custom_context_menu_callback.loop]
    have hb : custom_context_menu_callback.body disabled (n + 1) ([], e) =
        ([], e ++ [Effect.ewk_context_menu_nth_item_get (n + 1)]) := by
      simp [custom_context_menu_callback.body]
    rw [hb, ih, List.range'_1_concat, List.reverse_append]
    simp [Nat.add_comm]

theorem nthIndex_map_nth (l : List Nat) :
    (l.map Effect.ewk_context_menu_nth_item_get).filterMap Effect.nthIndex = l := by
  induction l with
  | nil => rfl
  | cons x rest ih => simp [Effect.nthIndex, ih]

/-- C22 on the code: for the empty menu (`cnt` = 0) the counter starts at 2^32 - 1; the
menu stays empty, and the indices passed to `ewk_context_menu_nth_item_get` are
4294967295 down to 1, so the first index passed is not below `cnt` and the loop makes
4294967295 passes. -/
theorem context_menu_empty_scan (self : WebViewImpl) :
    unsigned_of_int ((([] : List Ewk_Context_Menu_Item_Tag).length : Int) - 1) = 4294967295 ∧
    (custom_context_menu_callback self []).1 = [] ∧
    (WebViewImpl.since self (custom_context_menu_callback self []).2).filterMap
        Effect.nthIndex = (List.range' 1 4294967295).reverse ∧
    4294967295 ∈ (WebViewImpl.since self (custom_context_menu_callback self []).2).filterMap
        Effect.nthIndex ∧
    ((WebViewImpl.since self (custom_context_menu_callback self []).2).filterMap
        Effect.nthIndex).length = 4294967295 := by
  have hidx : unsigned_of_int ((([] : List Ewk_Context_Menu_Item_Tag).length : Int) - 1) =
      4294967295 := by decide
  have hacc : (WebViewImpl.since self (custom_context_menu_callback self []).2).filterMap
      Effect.nthIndex = (List.range' 1 4294967295).reverse := by
    rw [customize_eq, hidx, loop_empty_menu]
    have hask : self.menuAsked.filterMap Effect.nthIndex = [] := by
      unfold WebViewImpl.menuAsked
      cases self.listener_ <;> rfl
    have hs : WebViewImpl.since self
        { self with
          effects := self.effects ++ self.menuAsked ++
            (List.range' 1 4294967295).reverse.map Effect.ewk_context_menu_nth_item_get } =
        self.menuAsked ++
          (List.range' 1 4294967295).reverse.map Effect.ewk_context_menu_nth_item_get := by
      unfold WebViewImpl.since
      rw [List.append_assoc, List.drop_left]
    rw [hs, List.filterMap_append, hask, List.nil_append, nthIndex_map_nth]
  refine ⟨hidx, ?_, hacc, ?_, ?_⟩
  · rw [customize_eq, hidx, loop_empty_menu]
  · rw [hacc, List.mem_reverse, List.mem_range'_1]
    omega
  · rw [hacc, List.length_reverse, List.length_range']

end wrt

namespace extensions

/-! ## CodeToEnsureNamespace, statement by statement -/

/-- C23: `CodeToEnsureNamespace` is a total function (its loop is defined by recursion on
`size() + 1 - pos`, which decreases at every pass), and for every name its result is the
concatenation, in the order of the dots, of one statement `P = P || {}; ` for every dot,
`P` being the prefix of the name before that dot (the first `p` characters of the name
for the dot at position `p`), followed by the single statement `name = {};`. The dots
taken are exactly the positions of the `'.'` characters, in increasing order, so the
guarded statements are as many as the name has dots; for a name without a dot the result
is just `name = {};`. -/
theorem CodeToEnsureNamespace_statements (name : String) :
    CodeToEnsureNamespace name =
      String.join ((dotPositions name).map
        (fun p => String.mk (name.data.take p) ++ " = " ++ String.mk (name.data.take p) ++
          " || \x7b\x7d; ")) ++
        (name ++ " = \x7b\x7d;") ∧
    (dotPositions name).length = name.data.count '.' ∧
    (dotPositions name).Pairwise (fun p q => p < q) ∧
    (∀ p, p ∈ dotPositions name ↔ name.data[p]? = some '.') ∧
    ('.' ∉ name.data → CodeToEnsureNamespace name = name ++ " = \x7b\x7d;") := by
  refine ⟨CodeToEnsureNamespace_join name, dotPositions_length name, dotPositions_pairwise name,
    mem_dotPositions name, ?_⟩
  intro hno
  have h0 : (dotPositions name).length = 0 := by
    rw [dotPositions_length, List.count_eq_zero]
    exact hno
  have hnil : dotPositions name = [] := List.length_eq_zero.mp h0
  rw [CodeToEnsureNamespace_eq, hnil]
  apply String.ext
  simp [concatAll]

/-- Instance of `CodeToEnsureNamespace_statements` for the name "ab", which has no dot. -/
theorem CodeToEnsureNamespace_statements_witness :
    '.' ∉ "ab".data ∧ CodeToEnsureNamespace "ab" = "ab = \x7b\x7d;" :=
  ⟨by decide, (CodeToEnsureNamespace_statements "ab").2.2.2.2 (by decide)⟩

end extensions
